import Mathlib

/-!
# Final 3D scene renderer (Mod7Final/Source.cpp): embedding and properties

The program is a single translation unit built on GLFW, GLEW, GLM and stb_image.
Its observable behaviour is the sequence of calls it makes into those libraries
and the values of its file-scope variables.  The embedding therefore

* keeps the file-scope variables in an explicit record (`AppState`);
* turns every function of `Source.cpp` into a Lean function that returns the new
  state and/or the list of library calls it issues, in program order;
* represents `float`/`double` values by the rational number written in the source
  (arithmetic is exact; binary rounding of the stored values is not represented);
* represents GLM matrices by the expression that builds them (`Mat4`), since the
  program never inspects a matrix, it only builds and uploads it.

Everything the libraries and the user decide is a parameter: the uniform locations, the
names the driver hands out, the outcome of shader compilation and linking, what the image
decoder returns, the coordinate tables, the class `Camera` (its header is not part of the
sources) and the inputs of each iteration of the render loop (`Env`, `FrameInput`).  The
function `main` is total on a recorded list of iterations; its result says whether the
process has exited and with which status.
-/

namespace Scene

/-! ## Values -/

/-- The type `GLuint`: object handles and counts (no arithmetic near the word size occurs). -/
abbrev GLuint := Nat

/-- The type `GLint`: uniform locations, texture units. -/
abbrev GLint := Int

/-- The type `glm::vec2`. -/
structure Vec2 where
  x : Rat
  y : Rat
  deriving DecidableEq, Repr

/-- The type `glm::vec3`. -/
structure Vec3 where
  x : Rat
  y : Rat
  z : Rat
  deriving DecidableEq, Repr

/-- The one-argument constructor `glm::vec3(s)`: all three components equal `s`. -/
def Vec3.splat (s : Rat) : Vec3 := ⟨s, s, s⟩

/-- An angle argument as the program writes it: a plain value, `glm::radians(v)` or
`glm::degrees(v)`. -/
inductive Angle where
  | plain (v : Rat)
  | radians (v : Rat)
  | degrees (v : Rat)
  deriving DecidableEq, Repr

/-- The type `glm::mat4`, as the GLM expression that builds the matrix.
`translate m v`, `rotate m a v` and `scale m v` are the two/three-argument GLM
functions (they post-multiply `m`); `mul` is `operator*`. -/
inductive Mat4 where
  | identity
  | translate (m : Mat4) (v : Vec3)
  | rotate (m : Mat4) (angle : Angle) (axis : Vec3)
  | scale (m : Mat4) (v : Vec3)
  | mul (a b : Mat4)
  | lookAt (eye center up : Vec3)
  | perspective (fovy : Angle) (aspect near far : Rat)
  | ortho (left right bottom top near far : Rat)
  deriving DecidableEq, Repr

/-- The call `glm::translate(v)` of `gtx/transform`: a translation of the identity. -/
def glm_translate (v : Vec3) : Mat4 := Mat4.translate Mat4.identity v

/-- The call `glm::scale(v)` of `gtx/transform`: a scaling of the identity. -/
def glm_scale (v : Vec3) : Mat4 := Mat4.scale Mat4.identity v

/-- The call `glm::rotate(angle, axis)` of `gtx/transform`: a rotation of the identity. -/
def glm_rotate (angle : Angle) (axis : Vec3) : Mat4 := Mat4.rotate Mat4.identity angle axis

/-- The call `std::to_string` on a non-negative `int`: its decimal digits. -/
def to_string (n : Nat) : String := Nat.repr n

/-! ## Data of the program -/

/-- The constant `WINDOW_WIDTH`. -/
def WINDOW_WIDTH : Int := 800

/-- The constant `WINDOW_HEIGHT`. -/
def WINDOW_HEIGHT : Int := 600

/-- The struct `GLMesh`: three arrays of eleven handles/counts. -/
structure GLMesh where
  vao : Fin 11 → GLuint
  vbo : Fin 11 → GLuint
  nVertices : Fin 11 → GLuint

/-- The class `GLLight`. -/
structure GLLight where
  shaderProgram : GLuint
  lightPosition : Vec3
  lightScale : Vec3
  lightColor : Vec3
  lightIntensity : Rat
  highlightSize : Rat
  deriving DecidableEq, Repr

/-- The initial value of the vector `gSceneLights`. -/
def gSceneLights : List GLLight :=
  [ ⟨0, ⟨16, 20, -5⟩, Vec3.splat (1/10), ⟨33/100, 24/100, 3/10⟩, 3/10, 256⟩,
    ⟨0, ⟨8, 20, 5⟩, Vec3.splat (1/10), ⟨33/100, 24/100, 3/10⟩, 1/10, 256⟩,
    ⟨0, ⟨-8, 20, 5⟩, Vec3.splat (1/10), ⟨33/100, 24/100, 3/10⟩, 1/10, 256⟩,
    ⟨0, ⟨-16, 20, -5⟩, Vec3.splat (1/10), ⟨33/100, 24/100, 3/100⟩, 3/10, 256⟩,
    ⟨0, ⟨1, 5, 25⟩, Vec3.splat (3/10), ⟨82/100, 79/100, 74/100⟩, 2/10, 2⟩ ]

/-! ## Library calls -/

/-- One call `glVertexAttribPointer(index, size, GL_FLOAT, GL_FALSE, stride, offset)`,
sizes in floats, stride and offset in bytes. -/
structure VertexAttrib where
  index : Nat
  size : Nat
  stride : Nat
  offset : Nat
  deriving DecidableEq, Repr

/-- The four shader texts of `Source.cpp`, by the name of the variable that holds them
(the text itself is not reproduced). -/
inductive ShaderSource where
  | vertexShaderSource
  | fragmentShaderSource
  | lampVertexShaderSource
  | lampFragmentShaderSource
  deriving DecidableEq, Repr

/-- The OpenGL enumerants the program passes. -/
inductive GLenum where
  | GL_DEPTH_TEST
  | GL_TRIANGLES
  | GL_ARRAY_BUFFER
  | GL_STATIC_DRAW
  | GL_TEXTURE_2D
  | GL_TEXTURE_WRAP_S
  | GL_TEXTURE_WRAP_T
  | GL_REPEAT
  | GL_TEXTURE_MIN_FILTER
  | GL_TEXTURE_MAG_FILTER
  | GL_LINEAR
  | GL_RGB8
  | GL_RGB
  | GL_RGBA8
  | GL_RGBA
  | GL_UNSIGNED_BYTE
  | GL_VERTEX_SHADER
  | GL_FRAGMENT_SHADER
  | GL_COMPILE_STATUS
  | GL_LINK_STATUS
  deriving DecidableEq, Repr

/-- One call into OpenGL, GLFW, GLEW or stb_image, with its arguments.  For `glClear` the
two flags say whether `GL_COLOR_BUFFER_BIT` and `GL_DEPTH_BUFFER_BIT` are in the mask.  A
call that writes one new object name (`glGen*(1, &x)`, `glCreate*`) carries the name the
driver wrote; `glDelete*(n, names)` carries the `n` names it is given;
`glVertexAttribPointer` is always called with `GL_FLOAT` and `GL_FALSE`; `glBufferData`
carries the array it uploads, `none` when a write outside the array came before;
`glActiveTexture unit` stands for `glActiveTexture(GL_TEXTUREunit)`; the hints and modes of
GLFW are given by the text of the macro. -/
inductive GLCall where
  | glEnable (cap : GLenum)
  | glClearColor (r g b a : Rat)
  | glClear (color depth : Bool)
  | glBindVertexArray (vao : GLuint)
  | glUseProgram (program : GLuint)
  | glGetUniformLocation (program : GLuint) (name : String)
  | glUniformMatrix4fv (location : GLint) (m : Mat4)
  | glUniform3f (location : GLint) (v0 v1 v2 : Rat)
  | glUniform2fv (location : GLint) (v : Vec2)
  | glUniform1f (location : GLint) (v : Rat)
  | glUniform1i (location : GLint) (v : Int)
  | glDrawArrays (mode : GLenum) (first : Int) (count : GLuint)
  | glfwSwapBuffers
  | glGenVertexArrays (name : GLuint)
  | glGenBuffers (name : GLuint)
  | glBindBuffer (target : GLenum) (buffer : GLuint)
  | glBufferData (target : GLenum) (size : Nat) (data : Option (List Rat)) (usage : GLenum)
  | glVertexAttribPointer (attrib : VertexAttrib)
  | glEnableVertexAttribArray (index : Nat)
  | glDeleteVertexArrays (names : List GLuint)
  | glDeleteBuffers (names : List GLuint)
  | stbi_load (filename : String)
  | stbi_set_flip_vertically_on_load (flag : Bool)
  | stbi_image_free
  | glGenTextures (name : GLuint)
  | glBindTexture (target : GLenum) (texture : GLuint)
  | glTexParameteri (target pname param : GLenum)
  | glTexImage2D (target : GLenum) (level : Int) (internalformat : GLenum)
      (width height border : Int) (format type : GLenum)
  | glGenerateMipmap (target : GLenum)
  | glActiveTexture (unit : Nat)
  | glCreateProgram (name : GLuint)
  | glCreateShader (type : GLenum) (name : GLuint)
  | glShaderSource (shader : GLuint) (source : ShaderSource)
  | glCompileShader (shader : GLuint)
  | glGetShaderiv (shader : GLuint) (pname : GLenum)
  | glGetShaderInfoLog (shader : GLuint) (bufSize : Nat)
  | glAttachShader (program shader : GLuint)
  | glLinkProgram (program : GLuint)
  | glGetProgramiv (program : GLuint) (pname : GLenum)
  | glGetProgramInfoLog (program : GLuint) (bufSize : Nat)
  | glDeleteProgram (program : GLuint)
  | glfwInit
  | glfwWindowHint (hint value : String)
  | glfwCreateWindow (width height : Int) (title : String)
  | glfwTerminate
  | glfwMakeContextCurrent
  | glfwSetFramebufferSizeCallback
  | glfwSetCursorPosCallback
  | glfwSetScrollCallback
  | glfwSetInputMode (mode value : String)
  | glewInit
  | glViewport (x y width height : Int)
  deriving Repr

/-- What the driver answers to `glGetUniformLocation(program, name)`. -/
abbrev UniformLocations := GLuint → String → GLint

/-- Body of the first `for` loop of `URender` (source lines 458-469) for loop variable `i`
and `gSceneLights[i] = l`: four location lookups, then four uploads. -/
def URender_lightUniforms (loc : UniformLocations) (shaderProgramId : GLuint)
    (i : Nat) (l : GLLight) : List GLCall :=
  [ GLCall.glGetUniformLocation shaderProgramId ("lightColor" ++ to_string (i + 1)),
    GLCall.glGetUniformLocation shaderProgramId ("lightPos" ++ to_string (i + 1)),
    GLCall.glGetUniformLocation shaderProgramId ("lightIntensity" ++ to_string (i + 1)),
    GLCall.glGetUniformLocation shaderProgramId ("highlightSize" ++ to_string (i + 1)),
    GLCall.glUniform3f (loc shaderProgramId ("lightColor" ++ to_string (i + 1)))
      l.lightColor.x l.lightColor.y l.lightColor.z,
    GLCall.glUniform3f (loc shaderProgramId ("lightPos" ++ to_string (i + 1)))
      l.lightPosition.x l.lightPosition.y l.lightPosition.z,
    GLCall.glUniform1f (loc shaderProgramId ("lightIntensity" ++ to_string (i + 1)))
      l.lightIntensity,
    GLCall.glUniform1f (loc shaderProgramId ("highlightSize" ++ to_string (i + 1)))
      l.highlightSize ]

/-- The first `for` loop of `URender`: `for (i = start; i < size; i++)` over the lights that
remain from index `start` on. -/
def URender_lightLoop (loc : UniformLocations) (shaderProgramId : GLuint) :
    Nat → List GLLight → List GLCall
  | _, [] => []
  | i, l :: rest =>
    URender_lightUniforms loc shaderProgramId i l ++
      URender_lightLoop loc shaderProgramId (i + 1) rest

/-! ## Camera and file-scope state -/

/-- The enumeration `Camera_Movement` of `camera.h`, extended by `UP` and `DOWN` as the
program uses them. -/
inductive Camera_Movement where
  | FORWARD | BACKWARD | LEFT | RIGHT | UP | DOWN
  deriving DecidableEq, Repr

/-- The members of class `Camera` that `Source.cpp` uses.  The header `camera.h` is not
part of the sources, so the class is a parameter: `C` is the type of camera objects. -/
structure CameraClass (C : Type) where
  ProcessKeyboard : C → Camera_Movement → Rat → C
  ProcessMouseMovement : C → Rat → Rat → C
  ProcessMouseScroll : C → Rat → C
  GetViewMatrix : C → Mat4
  Zoom : C → Rat
  Position : C → Vec3

/-- One method call received by a camera. -/
inductive CameraCall where
  | ProcessKeyboard (direction : Camera_Movement) (deltaTime : Rat)
  | ProcessMouseMovement (xoffset yoffset : Rat)
  | ProcessMouseScroll (yoffset : Rat)
  deriving DecidableEq, Repr

/-- A camera that only records the calls it receives, oldest first.  Its view matrix,
zoom and position are fixed placeholders. -/
def recordingCamera : CameraClass (List CameraCall) where
  ProcessKeyboard c d dt := c ++ [CameraCall.ProcessKeyboard d dt]
  ProcessMouseMovement c dx dy := c ++ [CameraCall.ProcessMouseMovement dx dy]
  ProcessMouseScroll c dy := c ++ [CameraCall.ProcessMouseScroll dy]
  GetViewMatrix _ := Mat4.lookAt ⟨0, 30, 40⟩ ⟨0, 30, 39⟩ ⟨0, 1, 0⟩
  Zoom _ := 45
  Position _ := ⟨0, 30, 40⟩

/-- The variables of the anonymous namespace of `Source.cpp`, together with the close
flag of the window `gWindow`. -/
structure AppState (C : Type) where
  windowShouldClose : Bool
  gMesh : GLMesh
  texture1 : GLuint
  texture2 : GLuint
  texture3 : GLuint
  texture4 : GLuint
  texture5 : GLuint
  texture6 : GLuint
  texture7 : GLuint
  texture8 : GLuint
  texture9 : GLuint
  texture10 : GLuint
  gUVScale : Vec2
  gSceneLights : List GLLight
  shaderProgramId : GLuint
  gCamera : C
  gLastX : Rat
  gLastY : Rat
  gDeltaTime : Rat
  gLastFrame : Rat
  scroll : Rat
  gFirstMouse : Bool
  perspective : Bool

/-- The values the variables have when `main` starts: the written initialisers, zero for
the variables without one.  `cam` is the camera built by `Camera(glm::vec3(0, 30, 40))`. -/
def initialState {C : Type} (cam : C) : AppState C where
  windowShouldClose := false
  gMesh := ⟨fun _ => 0, fun _ => 0, fun _ => 0⟩
  texture1 := 0
  texture2 := 0
  texture3 := 0
  texture4 := 0
  texture5 := 0
  texture6 := 0
  texture7 := 0
  texture8 := 0
  texture9 := 0
  texture10 := 0
  gUVScale := ⟨1, 1⟩
  gSceneLights := gSceneLights
  shaderProgramId := 0
  gCamera := cam
  gLastX := (WINDOW_WIDTH : Rat) / 2
  gLastY := (WINDOW_HEIGHT : Rat) / 2
  gDeltaTime := 0
  gLastFrame := 0
  scroll := 10
  gFirstMouse := true
  perspective := true

/-! ## Input -/

/-- The keys the program polls. -/
inductive Key where
  | GLFW_KEY_ESCAPE | GLFW_KEY_W | GLFW_KEY_S | GLFW_KEY_A | GLFW_KEY_D
  | GLFW_KEY_E | GLFW_KEY_Q | GLFW_KEY_P
  deriving DecidableEq, Repr

/-- The statement `if (glfwGetKey(window, key) == GLFW_PRESS)
gCamera.ProcessKeyboard(direction, gDeltaTime);` of `UProcessInput`. -/
def moveOnKey {C : Type} (K : CameraClass C) (glfwGetKey : Key → Bool) (key : Key)
    (direction : Camera_Movement) (s : AppState C) : AppState C :=
  if glfwGetKey key then
    { s with gCamera := K.ProcessKeyboard s.gCamera direction s.gDeltaTime }
  else s

/-- The statement `perspective = !perspective;` of `UProcessInput` (source line 384). -/
def toggleProjection {C : Type} (s : AppState C) : AppState C :=
  { s with perspective := !s.perspective }

/-- The function `UProcessInput`.  `glfwGetKey k` is true when
`glfwGetKey(window, k) == GLFW_PRESS` at this poll. -/
def UProcessInput {C : Type} (K : CameraClass C) (glfwGetKey : Key → Bool)
    (s : AppState C) : AppState C :=
  let s := if glfwGetKey Key.GLFW_KEY_ESCAPE then { s with windowShouldClose := true } else s
  let s := moveOnKey K glfwGetKey Key.GLFW_KEY_W Camera_Movement.FORWARD s
  let s := moveOnKey K glfwGetKey Key.GLFW_KEY_S Camera_Movement.BACKWARD s
  let s := moveOnKey K glfwGetKey Key.GLFW_KEY_A Camera_Movement.LEFT s
  let s := moveOnKey K glfwGetKey Key.GLFW_KEY_D Camera_Movement.RIGHT s
  let s := moveOnKey K glfwGetKey Key.GLFW_KEY_E Camera_Movement.UP s
  let s := moveOnKey K glfwGetKey Key.GLFW_KEY_Q Camera_Movement.DOWN s
  let s := if glfwGetKey Key.GLFW_KEY_P then toggleProjection s else s
  s

/-- A poll in which the key `P` is the only key down. -/
def onlyP : Key → Bool := fun k => decide (k = Key.GLFW_KEY_P)

/-- The key bindings of the header comment of `Source.cpp`, in the order in which
`UProcessInput` tests them. -/
def movementKeys : List (Key × Camera_Movement) :=
  [ (Key.GLFW_KEY_W, Camera_Movement.FORWARD),
    (Key.GLFW_KEY_S, Camera_Movement.BACKWARD),
    (Key.GLFW_KEY_A, Camera_Movement.LEFT),
    (Key.GLFW_KEY_D, Camera_Movement.RIGHT),
    (Key.GLFW_KEY_E, Camera_Movement.UP),
    (Key.GLFW_KEY_Q, Camera_Movement.DOWN) ]

/-- The function `UMousePositionCallback`. -/
def UMousePositionCallback {C : Type} (K : CameraClass C) (xpos ypos : Rat)
    (s : AppState C) : AppState C :=
  let s := if s.gFirstMouse then
    { s with gLastX := xpos, gLastY := ypos, gFirstMouse := false } else s
  let xoffset := xpos - s.gLastX
  let yoffset := s.gLastY - ypos
  let s := { s with gLastX := xpos, gLastY := ypos }
  { s with gCamera := K.ProcessMouseMovement s.gCamera xoffset yoffset }

/-- The function `UMouseScrollCallback`. -/
def UMouseScrollCallback {C : Type} (K : CameraClass C) (_xoffset yoffset : Rat)
    (s : AppState C) : AppState C :=
  { s with gCamera := K.ProcessMouseScroll s.gCamera yoffset }

/-! ## Rendering a frame -/

/-- The projection matrix `URender` computes (source lines 436-446). -/
def URender_projection {C : Type} (K : CameraClass C) (s : AppState C) : Mat4 :=
  if s.perspective then
    Mat4.perspective (Angle.radians (K.Zoom s.gCamera))
      ((WINDOW_WIDTH : Rat) / (WINDOW_HEIGHT : Rat)) (1/10) 100
  else
    let scale : Rat := 50
    Mat4.ortho (-((WINDOW_WIDTH : Rat) / scale)) ((WINDOW_WIDTH : Rat) / scale)
      (-(WINDOW_HEIGHT : Rat) / scale) ((WINDOW_HEIGHT : Rat) / scale) (1/10) 100

/-- The three lookups `modelLoc = ..., viewLoc = ..., projLoc = ...` followed by the three
`glUniformMatrix4fv` uploads, as they occur for `program`. -/
def uploadMatrices (loc : UniformLocations) (program : GLuint)
    (model view projection : Mat4) : List GLCall :=
  [ GLCall.glGetUniformLocation program "model",
    GLCall.glGetUniformLocation program "view",
    GLCall.glGetUniformLocation program "projection",
    GLCall.glUniformMatrix4fv (loc program "model") model,
    GLCall.glUniformMatrix4fv (loc program "view") view,
    GLCall.glUniformMatrix4fv (loc program "projection") projection ]

/-- The tail shared by the ten object blocks of `URender`: upload the matrices, set the
sampler `uTexture` to `unit`, bind `vao[vaoIx]` and draw `nVertices[countIx]` vertices as
triangles.  The three numbers are written separately in every block of the source. -/
def drawObject {C : Type} (loc : UniformLocations) (s : AppState C)
    (model view projection : Mat4) (unit : Int) (vaoIx countIx : Fin 11) : List GLCall :=
  uploadMatrices loc s.shaderProgramId model view projection ++
  [ GLCall.glGetUniformLocation s.shaderProgramId "uTexture",
    GLCall.glUniform1i (loc s.shaderProgramId "uTexture") unit,
    GLCall.glBindVertexArray (s.gMesh.vao vaoIx),
    GLCall.glDrawArrays GLenum.GL_TRIANGLES 0 (s.gMesh.nVertices countIx) ]

/-- Body of the second `for` loop of `URender` (source lines 625-643) for the light `l`.
The `glDrawArrays` call of the source is inside a comment, so nothing is drawn. -/
def URender_lamp {C : Type} (loc : UniformLocations) (s : AppState C)
    (view projection : Mat4) (l : GLLight) : List GLCall :=
  let model := Mat4.mul (glm_translate l.lightPosition) (glm_scale l.lightScale)
  [ GLCall.glUseProgram l.shaderProgram,
    GLCall.glBindVertexArray (s.gMesh.vao 0) ] ++
  uploadMatrices loc l.shaderProgram model view projection

/-- The second `for` loop of `URender`, over the lights in order. -/
def URender_lampLoop {C : Type} (loc : UniformLocations) (s : AppState C)
    (view projection : Mat4) : List GLLight → List GLCall
  | [] => []
  | l :: rest => URender_lamp loc s view projection l ++ URender_lampLoop loc s view projection rest

/-- The part of `URender` before the object blocks (source lines 421-476). -/
def URender_setup {C : Type} (loc : UniformLocations) (K : CameraClass C)
    (s : AppState C) : List GLCall :=
  let model := Mat4.identity
  let view := K.GetViewMatrix s.gCamera
  let projection := URender_projection K s
  let cameraPosition := K.Position s.gCamera
  [ GLCall.glEnable GLenum.GL_DEPTH_TEST,
    GLCall.glClearColor 0 0 0 1,
    GLCall.glClear true true,
    GLCall.glBindVertexArray (s.gMesh.vao 0),
    GLCall.glUseProgram s.shaderProgramId ] ++
  uploadMatrices loc s.shaderProgramId model view projection ++
  URender_lightLoop loc s.shaderProgramId 0 s.gSceneLights ++
  [ GLCall.glGetUniformLocation s.shaderProgramId "viewPosition",
    GLCall.glUniform3f (loc s.shaderProgramId "viewPosition")
      cameraPosition.x cameraPosition.y cameraPosition.z,
    GLCall.glGetUniformLocation s.shaderProgramId "uvScale",
    GLCall.glUniform2fv (loc s.shaderProgramId "uvScale") s.gUVScale ]

/-- The ten object blocks of `URender` (source lines 478-622), in source order. -/
def URender_objects {C : Type} (loc : UniformLocations) (K : CameraClass C)
    (s : AppState C) : List GLCall :=
  let view := K.GetViewMatrix s.gCamera
  let projection := URender_projection K s
  -- Draw Milk Bottom
  let model := Mat4.identity
  let scale := Mat4.scale model ⟨1/2, 1/2, 1/2⟩
  let model := scale
  let milkBottom := drawObject loc s model view projection 2 2 2
  -- Draw Milk Top
  let model := Mat4.identity
  let scale := Mat4.scale model ⟨1/2, 1/2, 1/2⟩
  let model := scale
  let milkTop := drawObject loc s model view projection 3 3 3
  -- Draw cap top
  let model := Mat4.identity
  let translation := Mat4.translate model ⟨-335/100, 11, -28/10⟩
  let rotation := Mat4.rotate model (Angle.degrees (61/10)) ⟨1, 0, 0⟩
  let scale := Mat4.scale model ⟨85/100, 1, 85/100⟩
  let model := Mat4.mul (Mat4.mul translation rotation) scale
  let capTop := drawObject loc s model view projection 7 7 7
  -- Draw cap sides
  let model := Mat4.identity
  let translation := Mat4.translate model ⟨-335/100, 11, -28/10⟩
  let rotation := Mat4.rotate model (Angle.degrees (61/10)) ⟨1, 0, 0⟩
  let scale := Mat4.scale model ⟨85/100, 1, 85/100⟩
  let model := Mat4.mul (Mat4.mul translation rotation) scale
  let capSide := drawObject loc s model view projection 8 8 8
  -- Draw donut box
  let model := Mat4.identity
  let translation := Mat4.translate model ⟨5, 0, 2⟩
  let scale := Mat4.scale model ⟨7/10, 6/10, 7/10⟩
  let model := Mat4.mul translation scale
  let donutBox := drawObject loc s model view projection 4 4 4
  -- Draw donut
  let model := Mat4.identity
  let translation := Mat4.translate model ⟨0, 0, 6⟩
  let scale := Mat4.scale model ⟨6/10, 7/10, 6/10⟩
  let model := Mat4.mul translation scale
  let donut := drawObject loc s model view projection 9 9 9
  -- Draw glass top
  let model := Mat4.identity
  let translation := Mat4.translate model ⟨-5, 0, 4⟩
  let scale := Mat4.scale model ⟨4/10, 4/10, 4/10⟩
  let model := Mat4.mul translation scale
  let glassTop := drawObject loc s model view projection 5 5 5
  -- Draw glass sides
  let model := Mat4.identity
  let translation := Mat4.translate model ⟨-5, 0, 4⟩
  let scale := Mat4.scale model ⟨4/10, 4/10, 4/10⟩
  let model := Mat4.mul translation scale
  let glassSide := drawObject loc s model view projection 6 6 6
  -- Draw Milk Plane
  let model := Mat4.identity
  let scale := Mat4.scale model ⟨1/2, 1/2, 1/2⟩
  let model := scale
  let milkPlane := drawObject loc s model view projection 10 10 10
  -- Draw Plane
  let model := Mat4.identity
  let plane := drawObject loc s model view projection 1 1 1
  milkBottom ++ milkTop ++ capTop ++ capSide ++ donutBox ++ donut ++ glassTop ++ glassSide ++
    milkPlane ++ plane

/-- The function `URender`: the calls of one frame, in program order. -/
def URender {C : Type} (loc : UniformLocations) (K : CameraClass C)
    (s : AppState C) : List GLCall :=
  URender_setup loc K s ++
  URender_objects loc K s ++
  URender_lampLoop loc s (K.GetViewMatrix s.gCamera) (URender_projection K s) s.gSceneLights ++
  [ GLCall.glBindVertexArray 0,
    GLCall.glUseProgram 0,
    GLCall.glfwSwapBuffers ]

/-! ## Reading a call sequence -/

/-- One `glDrawArrays` call together with the program and the vertex array that were
bound when it was issued. -/
structure DrawRecord where
  program : GLuint
  vao : GLuint
  mode : GLenum
  first : Int
  count : GLuint
  deriving DecidableEq, Repr

/-- The draw calls of a call sequence, oldest first, each with the bindings in force:
`program` and `vao` are the bindings before the first call of the sequence. -/
def drawRecords : GLuint → GLuint → List GLCall → List DrawRecord
  | _, _, [] => []
  | _, vao, GLCall.glUseProgram p :: rest => drawRecords p vao rest
  | program, _, GLCall.glBindVertexArray v :: rest => drawRecords program v rest
  | program, vao, GLCall.glDrawArrays mode first count :: rest =>
    ⟨program, vao, mode, first, count⟩ :: drawRecords program vao rest
  | program, vao, _ :: rest => drawRecords program vao rest

/-- Whether a call is a `glDrawArrays` call. -/
def isDraw : GLCall → Bool
  | GLCall.glDrawArrays _ _ _ => true
  | _ => false

/-! ## Mesh names

The index of each primitive in `gMesh`, as `UCreateMesh` assigns them (the section
comments and the accessor each section reads from). -/

/-- Index of the light marker (`getLightCoords`). -/
def lightMarker : Fin 11 := 0
/-- Index of the ground plane (`getPlaneCoords`). -/
def planeGround : Fin 11 := 1
/-- Index of the milk carton body (`getMilkBotCoords`). -/
def milkBody : Fin 11 := 2
/-- Index of the milk carton top (`getMilkTopCoords`). -/
def milkTop : Fin 11 := 3
/-- Index of the donut box (`getBoxCoords`). -/
def donutBox : Fin 11 := 4
/-- Index of the glass top (`getGlassTopcoords`). -/
def glassTop : Fin 11 := 5
/-- Index of the glass side (`getGlassSideCoords`). -/
def glassSide : Fin 11 := 6
/-- Index of the cap top (`getCapTopCoords`). -/
def capTop : Fin 11 := 7
/-- Index of the cap side (`getCapSideCoords`). -/
def capSide : Fin 11 := 8
/-- Index of the donut (`getDonutCoords`). -/
def donut : Fin 11 := 9
/-- Index of the milk plane (`getMilkPlaneCoords`). -/
def milkPlane : Fin 11 := 10

/-- The names looked up by the `glGetUniformLocation` calls of a call sequence, oldest
first. -/
def lookedUpNames : List GLCall → List String
  | [] => []
  | GLCall.glGetUniformLocation _ name :: rest => name :: lookedUpNames rest
  | _ :: rest => lookedUpNames rest

/-! ## Shader text -/

/-- The light uniforms the fragment shader `fragmentShaderSource` declares (source lines
155-174), in the order of declaration. -/
def fragmentShaderLightUniforms : List String :=
  [ "lightColor1", "lightPos1", "lightIntensity1", "highlightSize1",
    "lightColor2", "lightPos2", "lightIntensity2", "highlightSize2",
    "lightColor3", "lightPos3", "lightIntensity3", "highlightSize3",
    "lightColor4", "lightPos4", "lightIntensity4", "highlightSize4",
    "lightColor5", "lightPos5", "lightIntensity5", "highlightSize5" ]

/-- The other uniforms `fragmentShaderSource` declares (source lines 176-178). -/
def fragmentShaderOtherUniforms : List String :=
  [ "viewPosition", "uTexture", "uvScale" ]

/-! ## Building the meshes -/

/-- The value of `sizeof(GLfloat)`. -/
def sizeofGLfloat : Nat := 4

/-- The constant `floatsPerVertex` of `UCreateMesh`. -/
def floatsPerVertex : Nat := 3

/-- The constant `floatsPerNormal` of `UCreateMesh`. -/
def floatsPerNormal : Nat := 3

/-- The constant `floatsPerUV` of `UCreateMesh`. -/
def floatsPerUV : Nat := 2

/-- The tables returned by the accessors of class `Coordinates`.  Only the declaration
`Coordinates.h` is part of the sources, so the tables are a parameter. -/
structure Coordinates where
  getPlaneCoords : List Rat
  getMilkBotCoords : List Rat
  getMilkTopCoords : List Rat
  getCapTopCoords : List Rat
  getCapSideCoords : List Rat
  getMilkPlaneCoords : List Rat
  getBoxCoords : List Rat
  getDonutCoords : List Rat
  getGlassTopcoords : List Rat
  getGlassSideCoords : List Rat
  getLightCoords : List Rat

/-- The copy loop `for (i = start; i < coords->size(); i++) vertices[i] = coords->at(i)`
over the entries of the table that remain from index `i` on.  A write at an index
outside `vertices` is reported as `Except.error i`. -/
def copyCoords (vertices : List Rat) : Nat → List Rat → Except Nat (List Rat)
  | _, [] => Except.ok vertices
  | i, c :: rest =>
    if i < vertices.length then copyCoords (vertices.set i c) (i + 1) rest
    else Except.error i

/-- What one section of `UCreateMesh` computes for its mesh: the stored vertex count, the
byte size and the contents passed to `glBufferData`, and the attribute pointers. -/
structure MeshSection where
  nVertices : GLuint
  bufferSize : Nat
  bufferData : Except Nat (List Rat)
  attribs : List VertexAttrib

/-- The section of `UCreateMesh` for the light marker, whose array is declared with
`declared` floats: positions only. -/
def lightSection (declared : Nat) (coords : List Rat) : MeshSection where
  nVertices := (declared * sizeofGLfloat) / (sizeofGLfloat * floatsPerVertex)
  bufferSize := declared * sizeofGLfloat
  bufferData := copyCoords (List.replicate declared 0) 0 coords
  attribs := [ ⟨0, floatsPerVertex, sizeofGLfloat * floatsPerVertex, 0⟩ ]

/-- The section of `UCreateMesh` for any other mesh, whose array is declared with
`declared` floats: position, normal and texture coordinate. -/
def objectSection (declared : Nat) (coords : List Rat) : MeshSection :=
  let stride := sizeofGLfloat * (floatsPerVertex + floatsPerNormal + floatsPerUV)
  { nVertices :=
      (declared * sizeofGLfloat) /
        (sizeofGLfloat * (floatsPerVertex + floatsPerNormal + floatsPerUV))
    bufferSize := declared * sizeofGLfloat
    bufferData := copyCoords (List.replicate declared 0) 0 coords
    attribs :=
      [ ⟨0, floatsPerVertex, stride, 0⟩,
        ⟨1, floatsPerNormal, stride, sizeofGLfloat * floatsPerVertex⟩,
        ⟨2, floatsPerUV, stride, sizeofGLfloat * (floatsPerVertex + floatsPerNormal)⟩ ] }

/-- The eleven mesh sections of `UCreateMesh` (source lines 660-865); section `k` fills
`vao[k]`, `vbo[k]` and `nVertices[k]`. -/
def UCreateMesh_sections (c : Coordinates) : List MeshSection :=
  [ lightSection 108 c.getLightCoords,
    objectSection 48 c.getPlaneCoords,
    objectSection 192 c.getMilkBotCoords,
    objectSection 144 c.getMilkTopCoords,
    objectSection 240 c.getBoxCoords,
    objectSection 192 c.getGlassTopcoords,
    objectSection 384 c.getGlassSideCoords,
    objectSection 192 c.getCapTopCoords,
    objectSection 384 c.getCapSideCoords,
    objectSection 3072 c.getDonutCoords,
    objectSection 48 c.getMilkPlaneCoords ]

/-- The number of floats of one vertex of mesh `k`: the sizes of its attributes added. -/
def floatsOfVertex (m : MeshSection) : Nat := (m.attribs.map VertexAttrib.size).sum

/-! ## Textures -/

/-- What `stbi_load` reports about a decoded image (the pixels themselves are not
represented). -/
structure Image where
  width : Int
  height : Int
  channels : Int
  deriving DecidableEq, Repr

/-- The outcome of a call of `UCreateTexture`: the value returned, the value of the
reference parameter `textureId` on return, the library calls made and the lines written
to `cout`. -/
structure TextureResult where
  ok : Bool
  textureId : GLuint
  calls : List GLCall
  output : List String

/-- The function `UCreateTexture`.  `stbi_load` says what the decoder returns for a file
(`none` for a null pointer), `newName` is the name `glGenTextures` writes if it is called,
`textureId` is the value of the reference parameter on entry. -/
def UCreateTexture (stbi_load : String → Option Image) (newName : GLuint)
    (filename : String) (textureId : GLuint) : TextureResult :=
  match stbi_load filename with
  | some image =>
    let calls :=
      [ GLCall.stbi_load filename,
        GLCall.stbi_set_flip_vertically_on_load true,
        GLCall.glGenTextures newName,
        GLCall.glBindTexture GLenum.GL_TEXTURE_2D newName,
        GLCall.glTexParameteri GLenum.GL_TEXTURE_2D GLenum.GL_TEXTURE_WRAP_S GLenum.GL_REPEAT,
        GLCall.glTexParameteri GLenum.GL_TEXTURE_2D GLenum.GL_TEXTURE_WRAP_T GLenum.GL_REPEAT,
        GLCall.glTexParameteri GLenum.GL_TEXTURE_2D GLenum.GL_TEXTURE_MIN_FILTER
          GLenum.GL_LINEAR,
        GLCall.glTexParameteri GLenum.GL_TEXTURE_2D GLenum.GL_TEXTURE_MAG_FILTER
          GLenum.GL_LINEAR ]
    let finish :=
      [ GLCall.glGenerateMipmap GLenum.GL_TEXTURE_2D,
        GLCall.stbi_image_free,
        GLCall.glBindTexture GLenum.GL_TEXTURE_2D 0 ]
    if image.channels = 3 then
      { ok := true
        textureId := newName
        calls := calls ++
          [ GLCall.glTexImage2D GLenum.GL_TEXTURE_2D 0 GLenum.GL_RGB8 image.width image.height 0
              GLenum.GL_RGB GLenum.GL_UNSIGNED_BYTE ] ++ finish
        output := [] }
    else if image.channels = 4 then
      { ok := true
        textureId := newName
        calls := calls ++
          [ GLCall.glTexImage2D GLenum.GL_TEXTURE_2D 0 GLenum.GL_RGBA8 image.width image.height
              0 GLenum.GL_RGBA GLenum.GL_UNSIGNED_BYTE ] ++ finish
        output := [] }
    else
      { ok := false
        textureId := newName
        calls := calls
        output :=
          [ "Not implemented to handle image with " ++ toString image.channels ++ " channels" ] }
  | none =>
    { ok := false
      textureId := textureId
      calls := [ GLCall.stbi_load filename ]
      output := [] }

/-- The function `UDestroyTexture`: its only statement is `glGenTextures(1, &textureId)` on
its by-value parameter; `newName` is the name that call writes. -/
def UDestroyTexture (newName : GLuint) (_textureId : GLuint) : List GLCall :=
  [ GLCall.glGenTextures newName ]

/-! ## Shader programs -/

/-- What the driver answers during one call of `UCreateShaderProgram`: the names returned
by `glCreateProgram` and the two `glCreateShader` calls, the status read back after each of
the three steps, and the text `glGet*InfoLog` writes into the buffer `infoLog` for it.  The
answers for a step that is not reached are not consulted. -/
structure ShaderAnswers where
  program : GLuint
  vertexShader : GLuint
  fragmentShader : GLuint
  vertexCompiled : Bool
  vertexLog : String
  fragmentCompiled : Bool
  fragmentLog : String
  linked : Bool
  linkLog : String

/-- The outcome of a call of `UCreateShaderProgram`: the value returned, the value of the
reference parameter `programId` on return, the library calls made and what is written to
`cout` (one entry per output statement). -/
structure ShaderResult where
  ok : Bool
  programId : GLuint
  calls : List GLCall
  output : List String

/-- The function `UCreateShaderProgram`. -/
def UCreateShaderProgram (a : ShaderAnswers) (vtxShaderSource fragShaderSource : ShaderSource) :
    ShaderResult :=
  let programId := a.program
  let vertexShaderId := a.vertexShader
  let fragmentShaderId := a.fragmentShader
  let calls :=
    [ GLCall.glCreateProgram programId,
      GLCall.glCreateShader GLenum.GL_VERTEX_SHADER vertexShaderId,
      GLCall.glCreateShader GLenum.GL_FRAGMENT_SHADER fragmentShaderId,
      GLCall.glShaderSource vertexShaderId vtxShaderSource,
      GLCall.glShaderSource fragmentShaderId fragShaderSource,
      GLCall.glCompileShader vertexShaderId,
      GLCall.glGetShaderiv vertexShaderId GLenum.GL_COMPILE_STATUS ]
  if !a.vertexCompiled then
    { ok := false
      programId := programId
      calls := calls ++ [ GLCall.glGetShaderInfoLog vertexShaderId 512 ]
      output := [ "ERROR::SHADER::VERTEX::COMPILATION_FAILED\n" ++ a.vertexLog ] }
  else
    let calls := calls ++
      [ GLCall.glCompileShader fragmentShaderId,
        GLCall.glGetShaderiv fragmentShaderId GLenum.GL_COMPILE_STATUS ]
    if !a.fragmentCompiled then
      { ok := false
        programId := programId
        calls := calls ++ [ GLCall.glGetShaderInfoLog fragmentShaderId 512 ]
        output := [ "ERROR::SHADER::FRAGMENT::COMPILATION_FAILED\n" ++ a.fragmentLog ] }
    else
      let calls := calls ++
        [ GLCall.glAttachShader programId vertexShaderId,
          GLCall.glAttachShader programId fragmentShaderId,
          GLCall.glLinkProgram programId,
          GLCall.glGetProgramiv programId GLenum.GL_LINK_STATUS ]
      if !a.linked then
        { ok := false
          programId := programId
          calls := calls ++ [ GLCall.glGetProgramInfoLog programId 512 ]
          output := [ "ERROR::SHADER::PROGRAM::LINKING_FAILED\n" ++ a.linkLog ] }
      else
        { ok := true
          programId := programId
          calls := calls ++ [ GLCall.glUseProgram programId ]
          output := [] }

/-- The function `UDestroyShaderProgram`. -/
def UDestroyShaderProgram (programId : GLuint) : List GLCall :=
  [ GLCall.glDeleteProgram programId ]

/-! ## Releasing the meshes -/

/-- The first `n` entries of an array of eleven names: what `glDelete*(n, array)` reads. -/
def firstNames (n : Nat) (array : Fin 11 → GLuint) : List GLuint :=
  (List.range n).filterMap (fun i => if h : i < 11 then some (array ⟨i, h⟩) else none)

/-- The function `UDestroyMesh`: `glDeleteVertexArrays(1, mesh.vao)` and
`glDeleteBuffers(1, mesh.vbo)`. -/
def UDestroyMesh (mesh : GLMesh) : List GLCall :=
  [ GLCall.glDeleteVertexArrays (firstNames 1 mesh.vao),
    GLCall.glDeleteBuffers (firstNames 1 mesh.vbo) ]

/-! ## Window and context -/

/-- The constant `WINDOW_TITLE`. -/
def WINDOW_TITLE : String := "Final 3D Scene By Paul K."

/-- What GLFW and GLEW answer during `UInitialize`: whether `glfwCreateWindow` returns a
window, whether `glewInit` returns `GLEW_OK`, and the text of `glewGetErrorString`. -/
structure InitAnswers where
  windowCreated : Bool
  glewOk : Bool
  glewErrorString : String

/-- The outcome of `UInitialize`: the value returned, the library calls made and the lines
written to `cout` and `cerr`. -/
structure InitResult where
  ok : Bool
  calls : List GLCall
  output : List String

/-- The function `UInitialize` (the hint inside `#ifdef __APPLE__` is left out). -/
def UInitialize (a : InitAnswers) : InitResult :=
  let calls :=
    [ GLCall.glfwInit,
      GLCall.glfwWindowHint "GLFW_CONTEXT_VERSION_MAJOR" "4",
      GLCall.glfwWindowHint "GLFW_CONTEXT_VERSION_MINOR" "4",
      GLCall.glfwWindowHint "GLFW_OPENGL_PROFILE" "GLFW_OPENGL_CORE_PROFILE",
      GLCall.glfwCreateWindow WINDOW_WIDTH WINDOW_HEIGHT WINDOW_TITLE ]
  if !a.windowCreated then
    { ok := false
      calls := calls ++ [ GLCall.glfwTerminate ]
      output := [ "Failed to create GLFW window" ] }
  else
    let calls := calls ++
      [ GLCall.glfwMakeContextCurrent,
        GLCall.glfwSetFramebufferSizeCallback,
        GLCall.glfwSetCursorPosCallback,
        GLCall.glfwSetScrollCallback,
        GLCall.glfwSetInputMode "GLFW_CURSOR" "GLFW_CURSOR_NORMAL",
        GLCall.glewInit ]
    if !a.glewOk then
      { ok := false, calls := calls, output := [ a.glewErrorString ] }
    else
      { ok := true, calls := calls, output := [] }

/-! ## The run of the program -/

/-- One event delivered by `glfwPollEvents`: a cursor move, a scroll, a change of the
framebuffer size, or the request to close the window. -/
inductive WindowEvent where
  | cursorPos (xpos ypos : Rat)
  | scroll (xoffset yoffset : Rat)
  | framebufferSize (width height : Int)
  | close
  deriving DecidableEq, Repr

/-- What the window system supplies during one iteration of the render loop: the value of
`glfwGetTime`, the key states polled by `UProcessInput`, and the events delivered by
`glfwPollEvents` at the end of the iteration, oldest first. -/
structure FrameInput where
  glfwGetTime : Rat
  glfwGetKey : Key → Bool
  events : List WindowEvent

/-- Everything outside the program that decides a run: the answers of GLFW and GLEW at
start-up, the coordinate tables, the names the driver writes for the vertex array and the
buffer of each mesh section, the decoder, the name `glGenTextures` writes in the `n`-th
call of `UCreateTexture` and in the `n`-th call of `UDestroyTexture`, the answers of the
driver in the `n`-th call of `UCreateShaderProgram`, the uniform locations, and the inputs
of the successive iterations of the render loop. -/
structure Env where
  init : InitAnswers
  coords : Coordinates
  vertexArrayName : Fin 11 → GLuint
  bufferName : Fin 11 → GLuint
  stbi_load : String → Option Image
  textureName : Nat → GLuint
  destroyTextureName : Nat → GLuint
  shader : Nat → ShaderAnswers
  uniformLocation : UniformLocations
  frames : List FrameInput

/-- The program at some point of its run: the file-scope variables, the library calls made
so far (oldest first) and the lines written so far. -/
structure Run (C : Type) where
  app : AppState C
  calls : List GLCall
  output : List String

/-- The calls of one mesh section of `UCreateMesh`, `vao` and `vbo` being the names the
driver writes. -/
def sectionCalls (vao vbo : GLuint) (m : MeshSection) : List GLCall :=
  [ GLCall.glGenVertexArrays vao,
    GLCall.glBindVertexArray vao,
    GLCall.glGenBuffers vbo,
    GLCall.glBindBuffer GLenum.GL_ARRAY_BUFFER vbo,
    GLCall.glBufferData GLenum.GL_ARRAY_BUFFER m.bufferSize m.bufferData.toOption
      GLenum.GL_STATIC_DRAW ] ++
  m.attribs.flatMap (fun a =>
    [ GLCall.glVertexAttribPointer a, GLCall.glEnableVertexAttribArray a.index ])

/-- The statement `if (!UCreateTexture(texFilename, texture)) cout << "Failed to load
texture " << texFilename << endl;` of `UCreateMesh`, as the `n`-th call of
`UCreateTexture`; `get` and `set` read and write the texture variable passed. -/
def loadTexture {C : Type} (env : Env) (n : Nat) (texFilename : String)
    (get : AppState C → GLuint) (set : AppState C → GLuint → AppState C) (w : Run C) : Run C :=
  let r := UCreateTexture env.stbi_load (env.textureName n) texFilename (get w.app)
  { app := set w.app r.textureId
    calls := w.calls ++ r.calls
    output := w.output ++ r.output ++
      (if r.ok then [] else [ "Failed to load texture " ++ texFilename ]) }

/-- The function `UCreateMesh`, run on the state `w`. -/
def UCreateMesh {C : Type} (env : Env) (w : Run C) : Run C :=
  let sections := UCreateMesh_sections env.coords
  let mesh : GLMesh :=
    { vao := env.vertexArrayName
      vbo := env.bufferName
      nVertices := fun k => (sections.map MeshSection.nVertices).getD k.val 0 }
  let w : Run C :=
    { app := { w.app with gMesh := mesh }
      calls := w.calls ++
        (List.zip (List.finRange 11) sections).flatMap (fun km =>
          sectionCalls (env.vertexArrayName km.1) (env.bufferName km.1) km.2)
      output := w.output }
  let w := loadTexture env 0 "plane1.jpg" (fun a => a.texture1)
    (fun a v => { a with texture1 := v }) w
  let w := loadTexture env 1 "milkCarton.jpg" (fun a => a.texture2)
    (fun a v => { a with texture2 := v }) w
  let w := loadTexture env 2 "milkTop.jpg" (fun a => a.texture3)
    (fun a v => { a with texture3 := v }) w
  let w := loadTexture env 3 "DonutBox1.jpg" (fun a => a.texture4)
    (fun a v => { a with texture4 := v }) w
  let w := loadTexture env 4 "glassTop8.jpg" (fun a => a.texture5)
    (fun a v => { a with texture5 := v }) w
  let w := loadTexture env 5 "milkSide.jpg" (fun a => a.texture6)
    (fun a v => { a with texture6 := v }) w
  let w := loadTexture env 6 "capTop.jpg" (fun a => a.texture7)
    (fun a v => { a with texture7 := v }) w
  let w := loadTexture env 7 "capSide.jpg" (fun a => a.texture8)
    (fun a v => { a with texture8 := v }) w
  let w := loadTexture env 8 "test5.jpg" (fun a => a.texture10)
    (fun a v => { a with texture10 := v }) w
  let w := loadTexture env 9 "donut1.png" (fun a => a.texture9)
    (fun a v => { a with texture9 := v }) w
  w

/-- The ten texture files, in the order in which `UCreateMesh` loads them. -/
def textureFiles : List String :=
  [ "plane1.jpg", "milkCarton.jpg", "milkTop.jpg", "DonutBox1.jpg", "glassTop8.jpg",
    "milkSide.jpg", "capTop.jpg", "capSide.jpg", "test5.jpg", "donut1.png" ]

/-- The outcome of the loop of `main` that creates the lamp programs: the lights with the
program names written so far, the calls and the output of the loop, and whether every
creation succeeded (the loop stops at the first that fails). -/
structure LampPrograms where
  lights : List GLLight
  calls : List GLCall
  output : List String
  ok : Bool

/-- The loop `for (i = start; i < gSceneLights.size(); i++)` of `main` over the lights that
remain from index `i` on; the creation for light `i` is call `i + 1` of
`UCreateShaderProgram`, call 0 being that of the lit program. -/
def createLampPrograms (shader : Nat → ShaderAnswers) : Nat → List GLLight → LampPrograms
  | _, [] => { lights := [], calls := [], output := [], ok := true }
  | i, l :: rest =>
    let r := UCreateShaderProgram (shader (i + 1)) ShaderSource.lampVertexShaderSource
      ShaderSource.lampFragmentShaderSource
    if !r.ok then
      { lights := { l with shaderProgram := r.programId } :: rest
        calls := r.calls
        output := r.output
        ok := false }
    else
      let t := createLampPrograms shader (i + 1) rest
      { lights := { l with shaderProgram := r.programId } :: t.lights
        calls := r.calls ++ t.calls
        output := r.output ++ t.output
        ok := t.ok }

/-- The outcome of the part of `main` before the render loop: whether it reached the loop,
and the program at that point (or at the `return EXIT_FAILURE`). -/
structure Startup (C : Type) where
  ok : Bool
  run : Run C

/-- The part of `main` before the render loop (source lines 250-264). -/
def startup {C : Type} (cam : C) (env : Env) : Startup C :=
  let i := UInitialize env.init
  let w : Run C := { app := initialState cam, calls := i.calls, output := i.output }
  if !i.ok then { ok := false, run := w }
  else
    let w := UCreateMesh env w
    let p := UCreateShaderProgram (env.shader 0) ShaderSource.vertexShaderSource
      ShaderSource.fragmentShaderSource
    let w : Run C :=
      { app := { w.app with shaderProgramId := p.programId }
        calls := w.calls ++ p.calls
        output := w.output ++ p.output }
    if !p.ok then { ok := false, run := w }
    else
      let l := createLampPrograms env.shader 0 w.app.gSceneLights
      let w : Run C :=
        { app := { w.app with gSceneLights := l.lights }
          calls := w.calls ++ l.calls
          output := w.output ++ l.output }
      if !l.ok then { ok := false, run := w }
      else { ok := true, run := { w with calls := w.calls ++ [ GLCall.glClearColor 0 0 0 1 ] } }

/-- The twenty calls that bind `texture1` to `texture10` to the texture units 1 to 10
(source lines 275-294). -/
def bindTextureUnits {C : Type} (s : AppState C) : List GLCall :=
  [ GLCall.glActiveTexture 1, GLCall.glBindTexture GLenum.GL_TEXTURE_2D s.texture1,
    GLCall.glActiveTexture 2, GLCall.glBindTexture GLenum.GL_TEXTURE_2D s.texture2,
    GLCall.glActiveTexture 3, GLCall.glBindTexture GLenum.GL_TEXTURE_2D s.texture3,
    GLCall.glActiveTexture 4, GLCall.glBindTexture GLenum.GL_TEXTURE_2D s.texture4,
    GLCall.glActiveTexture 5, GLCall.glBindTexture GLenum.GL_TEXTURE_2D s.texture5,
    GLCall.glActiveTexture 6, GLCall.glBindTexture GLenum.GL_TEXTURE_2D s.texture6,
    GLCall.glActiveTexture 7, GLCall.glBindTexture GLenum.GL_TEXTURE_2D s.texture7,
    GLCall.glActiveTexture 8, GLCall.glBindTexture GLenum.GL_TEXTURE_2D s.texture8,
    GLCall.glActiveTexture 9, GLCall.glBindTexture GLenum.GL_TEXTURE_2D s.texture9,
    GLCall.glActiveTexture 10, GLCall.glBindTexture GLenum.GL_TEXTURE_2D s.texture10 ]

/-- The callback GLFW invokes for one event: `UMousePositionCallback`,
`UMouseScrollCallback`, `UResizeWindow` (its only statement is `glViewport`), or, for a
close request, the setting of the close flag of the window. -/
def dispatch {C : Type} (K : CameraClass C) (e : WindowEvent) (w : Run C) : Run C :=
  match e with
  | WindowEvent.cursorPos xpos ypos => { w with app := UMousePositionCallback K xpos ypos w.app }
  | WindowEvent.scroll xoffset yoffset =>
    { w with app := UMouseScrollCallback K xoffset yoffset w.app }
  | WindowEvent.framebufferSize width height =>
    { w with calls := w.calls ++ [ GLCall.glViewport 0 0 width height ] }
  | WindowEvent.close => { w with app := { w.app with windowShouldClose := true } }

/-- The call `glfwPollEvents()`: the callbacks for the pending events, oldest first. -/
def glfwPollEvents {C : Type} (K : CameraClass C) : List WindowEvent → Run C → Run C
  | [], w => w
  | e :: rest, w => glfwPollEvents K rest (dispatch K e w)

/-- The first statements of an iteration of the render loop: `gDeltaTime` and `gLastFrame`
are updated from `glfwGetTime()` (source lines 270-272). -/
def tick {C : Type} (f : FrameInput) (s : AppState C) : AppState C :=
  let currentFrame := f.glfwGetTime
  { s with gDeltaTime := currentFrame - s.gLastFrame, gLastFrame := currentFrame }

/-- The state in which one iteration of the render loop calls `URender`: the time
variables updated, then `UProcessInput`. -/
def frameState {C : Type} (K : CameraClass C) (f : FrameInput) (s : AppState C) : AppState C :=
  UProcessInput K f.glfwGetKey (tick f s)

/-- One iteration of the render loop of `main` (source lines 269-300): the time update, the
texture-unit bindings, `UProcessInput`, `URender` and `glfwPollEvents`. -/
def frame {C : Type} (K : CameraClass C) (loc : UniformLocations) (f : FrameInput)
    (w : Run C) : Run C :=
  let s := frameState K f w.app
  glfwPollEvents K f.events
    { app := s
      calls := w.calls ++ (bindTextureUnits (tick f w.app) ++ URender loc K s)
      output := w.output }

/-- The render loop `while (!glfwWindowShouldClose(gWindow))` of `main` on the recorded
inputs.  The flag returned says whether the loop was left; it is false when the inputs end
while the window is still open. -/
def mainLoop {C : Type} (K : CameraClass C) (loc : UniformLocations) :
    List FrameInput → Run C → Run C × Bool
  | [], w => (w, w.app.windowShouldClose)
  | f :: rest, w =>
    if w.app.windowShouldClose then (w, true)
    else mainLoop K loc rest (frame K loc f w)

/-- The part of `main` after the render loop (source lines 303-318). -/
def teardown {C : Type} (env : Env) (s : AppState C) : List GLCall :=
  UDestroyMesh s.gMesh ++
  UDestroyTexture (env.destroyTextureName 0) s.texture1 ++
  UDestroyTexture (env.destroyTextureName 1) s.texture2 ++
  UDestroyTexture (env.destroyTextureName 2) s.texture3 ++
  UDestroyTexture (env.destroyTextureName 3) s.texture4 ++
  UDestroyTexture (env.destroyTextureName 4) s.texture5 ++
  UDestroyTexture (env.destroyTextureName 5) s.texture6 ++
  UDestroyTexture (env.destroyTextureName 6) s.texture7 ++
  UDestroyTexture (env.destroyTextureName 7) s.texture8 ++
  UDestroyTexture (env.destroyTextureName 8) s.texture9 ++
  UDestroyTexture (env.destroyTextureName 9) s.texture10 ++
  UDestroyShaderProgram s.shaderProgramId ++
  s.gSceneLights.flatMap (fun light => UDestroyShaderProgram light.shaderProgram)

/-- The exit status of the process. -/
inductive ExitStatus where
  | EXIT_SUCCESS
  | EXIT_FAILURE
  deriving DecidableEq, Repr

/-- The outcome of `main`: the exit status (`none` when the recorded inputs end while the
render loop is still running), and the program at that point. -/
structure MainResult (C : Type) where
  exit : Option ExitStatus
  run : Run C

/-- The function `main`. -/
def main {C : Type} (K : CameraClass C) (cam : C) (env : Env) : MainResult C :=
  let st := startup cam env
  if !st.ok then { exit := some ExitStatus.EXIT_FAILURE, run := st.run }
  else
    let looped := mainLoop K env.uniformLocation env.frames st.run
    if !looped.2 then { exit := none, run := looped.1 }
    else
      { exit := some ExitStatus.EXIT_SUCCESS
        run := { looped.1 with calls := looped.1.calls ++ teardown env looped.1.app } }

/-! ## Reading a run -/

/-- Whether a call is `glfwSwapBuffers`, the call that presents a frame. -/
def isSwap : GLCall → Bool
  | GLCall.glfwSwapBuffers => true
  | _ => false

/-- Whether a call is one of those made inside the render loop: the calls of `URender`,
the texture-unit bindings and `glViewport`. -/
def isFrameCall : GLCall → Bool
  | GLCall.glEnable _ => true
  | GLCall.glClearColor _ _ _ _ => true
  | GLCall.glClear _ _ => true
  | GLCall.glBindVertexArray _ => true
  | GLCall.glUseProgram _ => true
  | GLCall.glGetUniformLocation _ _ => true
  | GLCall.glUniformMatrix4fv _ _ => true
  | GLCall.glUniform3f _ _ _ _ => true
  | GLCall.glUniform2fv _ _ => true
  | GLCall.glUniform1f _ _ => true
  | GLCall.glUniform1i _ _ => true
  | GLCall.glDrawArrays _ _ _ => true
  | GLCall.glfwSwapBuffers => true
  | GLCall.glActiveTexture _ => true
  | GLCall.glBindTexture _ _ => true
  | GLCall.glViewport _ _ _ _ => true
  | _ => false

/-- The program name a call creates, if it is `glCreateProgram`. -/
def createdProgram : GLCall → Option GLuint
  | GLCall.glCreateProgram name => some name
  | _ => none

/-- The program name a call deletes, if it is `glDeleteProgram`. -/
def deletedProgram : GLCall → Option GLuint
  | GLCall.glDeleteProgram name => some name
  | _ => none

/-- The names written by the `glGenVertexArrays` calls of a call sequence, oldest first. -/
def generatedVertexArrays (calls : List GLCall) : List GLuint :=
  calls.filterMap (fun c => match c with
    | GLCall.glGenVertexArrays name => some name
    | _ => none)

/-- The names passed to the `glDeleteVertexArrays` calls of a call sequence. -/
def deletedVertexArrays (calls : List GLCall) : List GLuint :=
  calls.flatMap (fun c => match c with
    | GLCall.glDeleteVertexArrays names => names
    | _ => [])

/-- The names written by the `glGenBuffers` calls of a call sequence, oldest first. -/
def generatedBuffers (calls : List GLCall) : List GLuint :=
  calls.filterMap (fun c => match c with
    | GLCall.glGenBuffers name => some name
    | _ => none)

/-- The names passed to the `glDeleteBuffers` calls of a call sequence. -/
def deletedBuffers (calls : List GLCall) : List GLuint :=
  calls.flatMap (fun c => match c with
    | GLCall.glDeleteBuffers names => names
    | _ => [])

/-- The names written by the `glGenTextures` calls of a call sequence, oldest first. -/
def generatedTextures (calls : List GLCall) : List GLuint :=
  calls.filterMap (fun c => match c with
    | GLCall.glGenTextures name => some name
    | _ => none)

/-- The texture bound to `GL_TEXTURE_2D` after a call sequence that does not change the
active texture unit, `bound` being the texture bound before it. -/
def boundTexture (bound : GLuint) : List GLCall → GLuint
  | [] => bound
  | GLCall.glBindTexture _ texture :: rest => boundTexture texture rest
  | _ :: rest => boundTexture bound rest

/-- The files passed to the `stbi_load` calls of a call sequence, oldest first. -/
def loadedFiles (calls : List GLCall) : List String :=
  calls.filterMap (fun c => match c with
    | GLCall.stbi_load filename => some filename
    | _ => none)

/-- The number of calls of a call sequence that satisfy `p`. -/
def countCalls (p : GLCall → Bool) (calls : List GLCall) : Nat := calls.countP p

/-- Whether a call is `stbi_image_free`. -/
def isImageFree : GLCall → Bool
  | GLCall.stbi_image_free => true
  | _ => false

/-- Whether a call is `glCompileShader`. -/
def isCompile : GLCall → Bool
  | GLCall.glCompileShader _ => true
  | _ => false

/-- Whether a call is `glLinkProgram`. -/
def isLink : GLCall → Bool
  | GLCall.glLinkProgram _ => true
  | _ => false

/-- One `glDrawArrays` call together with the vertex array bound when it was issued and
the value of the latest `glUniform1i` call before it (the program's only use of
`glUniform1i` is to set the sampler `uTexture`). -/
structure ObjectDraw where
  vao : GLuint
  sampler : Int
  mode : GLenum
  count : GLuint
  deriving DecidableEq, Repr

/-- The draw calls of a call sequence with vertex array and sampler value in force, `vao`
and `sampler` being those in force before the sequence. -/
def objectDraws : GLuint → Int → List GLCall → List ObjectDraw
  | _, _, [] => []
  | _, sampler, GLCall.glBindVertexArray v :: rest => objectDraws v sampler rest
  | vao, _, GLCall.glUniform1i _ v :: rest => objectDraws vao v rest
  | vao, sampler, GLCall.glDrawArrays mode _ count :: rest =>
    ⟨vao, sampler, mode, count⟩ :: objectDraws vao sampler rest
  | vao, sampler, _ :: rest => objectDraws vao sampler rest

/-- Whether the driver answers in `a` that all three steps of a shader program creation
succeed. -/
def ShaderAnswers.allOk (a : ShaderAnswers) : Bool :=
  a.vertexCompiled && a.fragmentCompiled && a.linked

/-- Whether start-up reaches the render loop under `env`: the window and GLEW initialise
and the six program creations (the lit program, then one per light) succeed. -/
def startupOk (env : Env) : Bool :=
  env.init.windowCreated && env.init.glewOk &&
    (List.range 6).all (fun n => (env.shader n).allOk)

/-- Whether an event is the request to close the window. -/
def isClose : WindowEvent → Bool
  | WindowEvent.close => true
  | _ => false

/-- Whether an iteration with the inputs `f` raises the close flag: the escape key is down
at the poll, or a close request is among the events. -/
def closes (f : FrameInput) : Bool :=
  f.glfwGetKey Key.GLFW_KEY_ESCAPE || f.events.any isClose

/-- The number of iterations the render loop makes on the recorded inputs when it starts
with the close flag clear: up to and including the first that raises the flag. -/
def framesRun : List FrameInput → Nat
  | [] => 0
  | f :: rest => if closes f then 1 else 1 + framesRun rest

/-- The lines `UCreateMesh` and `UCreateTexture` write for one texture file. -/
def textureReports (stbi_load : String → Option Image) (filename : String) : List String :=
  match stbi_load filename with
  | none => [ "Failed to load texture " ++ filename ]
  | some image =>
    if image.channels = 3 ∨ image.channels = 4 then []
    else
      [ "Not implemented to handle image with " ++ toString image.channels ++ " channels",
        "Failed to load texture " ++ filename ]

/-- Whether a call neither presents a frame, nor draws, nor deletes a program: true of
every call made before the render loop. -/
def isSetupCall (c : GLCall) : Bool :=
  !isSwap c && !isDraw c && (deletedProgram c).isNone

/-- Whether a call is a set-up call that does not create a program either. -/
def isPlainSetupCall (c : GLCall) : Bool :=
  isSetupCall c && (createdProgram c).isNone

/-- Whether a call is `glUseProgram`. -/
def isUseProgram : GLCall → Bool
  | GLCall.glUseProgram _ => true
  | _ => false

/-! ## States used as examples -/

/-- A camera of the recording kind that has received no call. -/
def freshCamera : List CameraCall := []

/-- A mesh table as the driver fills it on a fresh context: handles `k + 1`, and the
vertex counts `UCreateMesh` stores. -/
def sampleMesh : GLMesh where
  vao k := k.val + 1
  vbo k := k.val + 1
  nVertices k := ([36, 6, 24, 18, 30, 24, 48, 24, 48, 384, 6] : List Nat).getD k.val 0

/-- A state after start-up: the meshes of `sampleMesh`, program 1 for the lit shader and
programs 2 to 6 for the five lamps. -/
def sampleState : AppState (List CameraCall) :=
  { initialState freshCamera with
    gMesh := sampleMesh
    shaderProgramId := 1
    gSceneLights :=
      List.zipWith (fun l p => { l with shaderProgram := p }) gSceneLights [2, 3, 4, 5, 6] }

/-- A driver that reports every uniform at location 0. -/
def sampleLocations : UniformLocations := fun _ _ => 0

/-- A driver that accepts every shader: in the `n`-th creation the program gets the name
`3 * n + 1` and the two shaders the next two names. -/
def sampleShader (n : Nat) : ShaderAnswers where
  program := 3 * n + 1
  vertexShader := 3 * n + 2
  fragmentShader := 3 * n + 3
  vertexCompiled := true
  vertexLog := ""
  fragmentCompiled := true
  fragmentLog := ""
  linked := true
  linkLog := ""

/-- An iteration in which nothing happens. -/
def idleFrame (time : Rat) : FrameInput :=
  { glfwGetTime := time, glfwGetKey := fun _ => false, events := [] }

/-- An iteration in which the escape key is down. -/
def escapeFrame (time : Rat) : FrameInput :=
  { glfwGetTime := time
    glfwGetKey := fun k => decide (k = Key.GLFW_KEY_ESCAPE)
    events := [] }

/-- A run in which everything succeeds: empty coordinate tables, names `k + 1` for vertex
arrays, buffers and textures, every file decoded as a 512 by 512 image with 3 channels,
and two iterations, the escape key being down in the second. -/
def sampleEnv : Env where
  init := { windowCreated := true, glewOk := true, glewErrorString := "" }
  coords := ⟨[], [], [], [], [], [], [], [], [], [], []⟩
  vertexArrayName k := k.val + 1
  bufferName k := k.val + 1
  stbi_load _ := some ⟨512, 512, 3⟩
  textureName n := n + 1
  destroyTextureName n := n + 11
  shader := sampleShader
  uniformLocation := sampleLocations
  frames := [ idleFrame 1, escapeFrame 2 ]

/-- The run of `sampleEnv`, except that `plane1.jpg` decodes as an image with 1 channel. -/
def oneChannelEnv : Env :=
  { sampleEnv with
    stbi_load := fun filename =>
      if filename = "plane1.jpg" then some ⟨512, 512, 1⟩ else some ⟨512, 512, 3⟩ }

/-- An iteration in which the key `P` is down and nothing else happens. -/
def toggleFrame (time : Rat) : FrameInput :=
  { glfwGetTime := time, glfwGetKey := onlyP, events := [] }

/-- The program at the start of the render loop of `sampleEnv`. -/
def sampleRun : Run (List CameraCall) := (startup freshCamera sampleEnv).run

/-- The run of `sampleEnv` with three iterations, the escape key being down in the
second. -/
def escapeEnv : Env :=
  { sampleEnv with frames := [ idleFrame 1, escapeFrame 2, idleFrame 3 ] }

/-! ## Reading the model matrix of a draw -/

/-- One `glDrawArrays` call together with the program in use, the vertex array bound, and
the matrix last uploaded to one uniform location of one program (`none` when none has
been uploaded). -/
structure ModelDraw where
  program : GLuint
  vao : GLuint
  model : Option Mat4
  deriving Repr

/-- The draw calls of a call sequence, oldest first, each with the program in use, the
vertex array bound and the matrix that the uniform at `location` of the program `target`
holds.  `glUniformMatrix4fv` writes to the program in use, so an upload changes that
matrix when `target` is in use and the upload goes to `location`.  The three arguments
before the sequence are the program in use, the vertex array bound and the matrix held
before its first call. -/
def modelDraws (target : GLuint) (location : GLint) :
    GLuint → GLuint → Option Mat4 → List GLCall → List ModelDraw
  | _, _, _, [] => []
  | _, vao, m, GLCall.glUseProgram p :: rest => modelDraws target location p vao m rest
  | program, _, m, GLCall.glBindVertexArray v :: rest =>
    modelDraws target location program v m rest
  | program, vao, m, GLCall.glUniformMatrix4fv l value :: rest =>
    modelDraws target location program vao
      (if program = target ∧ l = location then some value else m) rest
  | program, vao, m, GLCall.glDrawArrays _ _ _ :: rest =>
    ⟨program, vao, m⟩ :: modelDraws target location program vao m rest
  | program, vao, m, _ :: rest => modelDraws target location program vao m rest

/-- A driver that gives the uniforms `model`, `view` and `projection` of every program the
locations 0, 1 and 2, and every other name the location 3. -/
def namedLocations : UniformLocations := fun _ name =>
  if name = "model" then 0 else if name = "view" then 1 else if name = "projection" then 2 else 3

/-! ## Lemmas on the light loop -/

theorem lightUniforms_length (loc : UniformLocations) (p : GLuint) (i : Nat) (l : GLLight) :
    (URender_lightUniforms loc p i l).length = 8 := rfl

theorem lightLoop_length (loc : UniformLocations) (p : GLuint) (lights : List GLLight) :
    ∀ start, (URender_lightLoop loc p start lights).length = 8 * lights.length := by
  induction lights with
  | nil => intro start; rfl
  | cons l rest ih =>
    intro start
    simp only [URender_lightLoop, List.length_append, lightUniforms_length, ih, List.length_cons]
    omega

theorem lightLoop_iteration (loc : UniformLocations) (p : GLuint) (lights : List GLLight) :
    ∀ (start i : Nat) (l : GLLight), lights[i]? = some l →
      ((URender_lightLoop loc p start lights).drop (8 * i)).take 8 =
        URender_lightUniforms loc p (start + i) l := by
  induction lights with
  | nil => intro start i l h; simp at h
  | cons a rest ih =>
    intro start i l h
    cases i with
    | zero =>
      simp only [List.getElem?_cons_zero, Option.some.injEq] at h
      subst h
      simp only [URender_lightLoop, Nat.mul_zero, List.drop_zero, Nat.add_zero]
      rw [List.take_append_of_le_length (by simp [lightUniforms_length])]
      exact List.take_of_length_le (by simp [lightUniforms_length])
    | succ j =>
      simp only [List.getElem?_cons_succ] at h
      have hdrop : (URender_lightLoop loc p start (a :: rest)).drop (8 * (j + 1)) =
          (URender_lightLoop loc p (start + 1) rest).drop (8 * j) := by
        simp only [URender_lightLoop]
        rw [List.drop_append_eq_append_drop]
        have h8 : (URender_lightUniforms loc p start a).length = 8 := rfl
        rw [List.drop_of_length_le (by omega), h8]
        simp only [List.nil_append]
        congr 1
      rw [hdrop, ih (start + 1) j l h]
      congr 1
      omega

theorem getElem?_lt_length {α : Type} (xs : List α) (i : Nat) (x : α) (h : xs[i]? = some x) :
    i < xs.length := by
  rcases Nat.lt_or_ge i xs.length with hlt | hge
  · exact hlt
  · rw [List.getElem?_eq_none hge] at h
    cases h

theorem URender_split {C : Type} (loc : UniformLocations) (K : CameraClass C) (s : AppState C) :
    ∃ before after : List GLCall, before.length = 11 ∧
      URender loc K s =
        before ++ (URender_lightLoop loc s.shaderProgramId 0 s.gSceneLights ++ after) := by
  refine ⟨[ GLCall.glEnable GLenum.GL_DEPTH_TEST, GLCall.glClearColor 0 0 0 1,
      GLCall.glClear true true, GLCall.glBindVertexArray (s.gMesh.vao 0),
      GLCall.glUseProgram s.shaderProgramId ] ++
      uploadMatrices loc s.shaderProgramId Mat4.identity (K.GetViewMatrix s.gCamera)
        (URender_projection K s),
    [ GLCall.glGetUniformLocation s.shaderProgramId "viewPosition",
      GLCall.glUniform3f (loc s.shaderProgramId "viewPosition")
        (K.Position s.gCamera).x (K.Position s.gCamera).y (K.Position s.gCamera).z,
      GLCall.glGetUniformLocation s.shaderProgramId "uvScale",
      GLCall.glUniform2fv (loc s.shaderProgramId "uvScale") s.gUVScale ] ++
    (URender_objects loc K s ++
      (URender_lampLoop loc s (K.GetViewMatrix s.gCamera) (URender_projection K s)
        s.gSceneLights ++
      [ GLCall.glBindVertexArray 0, GLCall.glUseProgram 0, GLCall.glfwSwapBuffers ])),
    rfl, ?_⟩
  simp only [URender, URender_setup, List.append_assoc]

/-- C1: for the light at 0-based index `i` of `gSceneLights`, the eight calls of iteration
`i` of the first loop of `URender` (they start at position `11 + 8 * i` of the frame) look
up exactly the names `lightColor`, `lightPos`, `lightIntensity` and `highlightSize`
followed by the decimal digits of `i + 1`, and then upload to the locations the driver
returned for those names the colour, the position, the intensity and the highlight size of
that light, in this order. -/
theorem URender_light_uniforms {C : Type} (loc : UniformLocations) (K : CameraClass C)
    (s : AppState C) (i : Nat) (l : GLLight) (h : s.gSceneLights[i]? = some l) :
    ((URender loc K s).drop (11 + 8 * i)).take 8 =
      [ GLCall.glGetUniformLocation s.shaderProgramId ("lightColor" ++ to_string (i + 1)),
        GLCall.glGetUniformLocation s.shaderProgramId ("lightPos" ++ to_string (i + 1)),
        GLCall.glGetUniformLocation s.shaderProgramId ("lightIntensity" ++ to_string (i + 1)),
        GLCall.glGetUniformLocation s.shaderProgramId ("highlightSize" ++ to_string (i + 1)),
        GLCall.glUniform3f (loc s.shaderProgramId ("lightColor" ++ to_string (i + 1)))
          l.lightColor.x l.lightColor.y l.lightColor.z,
        GLCall.glUniform3f (loc s.shaderProgramId ("lightPos" ++ to_string (i + 1)))
          l.lightPosition.x l.lightPosition.y l.lightPosition.z,
        GLCall.glUniform1f (loc s.shaderProgramId ("lightIntensity" ++ to_string (i + 1)))
          l.lightIntensity,
        GLCall.glUniform1f (loc s.shaderProgramId ("highlightSize" ++ to_string (i + 1)))
          l.highlightSize ] := by
  obtain ⟨before, after, hlen, hsplit⟩ := URender_split loc K s
  have hi : i < s.gSceneLights.length := getElem?_lt_length _ _ _ h
  have hloop := lightLoop_iteration loc s.shaderProgramId s.gSceneLights 0 i l h
  have hlooplen := lightLoop_length loc s.shaderProgramId s.gSceneLights 0
  rw [hsplit, List.drop_append_eq_append_drop, List.drop_of_length_le (by omega), hlen]
  simp only [List.nil_append, Nat.add_sub_cancel_left]
  rw [List.drop_append_eq_append_drop, List.take_append_of_le_length]
  · rw [hloop, Nat.zero_add]; rfl
  · rw [List.length_drop]; omega

/-- Witness of C1: the fifth light of `sampleState` (index 4) is served by the names
ending in `5`. -/
theorem URender_light_uniforms_witness :
    sampleState.gSceneLights[4]? =
        some ⟨6, ⟨1, 5, 25⟩, Vec3.splat (3/10), ⟨82/100, 79/100, 74/100⟩, 2/10, 2⟩ ∧
      ((URender sampleLocations recordingCamera sampleState).drop (11 + 8 * 4)).take 8 =
      [ GLCall.glGetUniformLocation 1 "lightColor5",
        GLCall.glGetUniformLocation 1 "lightPos5",
        GLCall.glGetUniformLocation 1 "lightIntensity5",
        GLCall.glGetUniformLocation 1 "highlightSize5",
        GLCall.glUniform3f 0 (82/100) (79/100) (74/100),
        GLCall.glUniform3f 0 1 5 25,
        GLCall.glUniform1f 0 (2/10),
        GLCall.glUniform1f 0 2 ] :=
  ⟨rfl, URender_light_uniforms sampleLocations recordingCamera sampleState 4 _ rfl⟩

/-- C2: the names `URender` looks up in its light loop over `gSceneLights` are, as a set,
exactly the light uniforms the fragment shader declares; and for an arbitrary light list
the two sets are equal precisely when the list holds five lights. -/
theorem light_names_match_shader (loc : UniformLocations) (p : GLuint) :
    (∀ name, name ∈ lookedUpNames (URender_lightLoop loc p 0 gSceneLights) ↔
        name ∈ fragmentShaderLightUniforms) ∧
    ∀ lights : List GLLight,
      (∀ name, name ∈ lookedUpNames (URender_lightLoop loc p 0 lights) ↔
        name ∈ fragmentShaderLightUniforms) ↔ lights.length = 5 := by
  have five : ∀ a b c d e : GLLight,
      lookedUpNames (URender_lightLoop loc p 0 [a, b, c, d, e]) =
        fragmentShaderLightUniforms := fun _ _ _ _ _ => rfl
  have declared5 : "lightColor5" ∈ fragmentShaderLightUniforms := by decide
  have declared6 : ¬ "lightColor6" ∈ fragmentShaderLightUniforms := by decide
  refine ⟨fun name => by rw [show gSceneLights = [_, _, _, _, _] from rfl, five], ?_⟩
  intro lights
  constructor
  · intro h
    have fewer : ∀ (ls : List GLLight) (n : Nat), ls.length = n → n < 5 →
        ¬ "lightColor5" ∈ lookedUpNames (URender_lightLoop loc p 0 ls) := by
      intro ls n hn hlt
      have indep : lookedUpNames (URender_lightLoop loc p 0 ls) =
          lookedUpNames (URender_lightLoop sampleLocations 0 0 (gSceneLights.take n)) := by
        rcases ls with _ | ⟨a, _ | ⟨b, _ | ⟨c, _ | ⟨d, _ | ⟨e, rest⟩⟩⟩⟩⟩ <;>
          simp only [List.length_cons, List.length_nil] at hn <;> subst hn <;>
          first | rfl | omega
      rw [indep]
      interval_cases n <;> decide
    rcases Nat.lt_trichotomy lights.length 5 with hlt | heq | hgt
    · exact absurd ((h _).2 declared5) (fewer lights _ rfl hlt)
    · exact heq
    · rcases lights with _ | ⟨a, _ | ⟨b, _ | ⟨c, _ | ⟨d, _ | ⟨e, _ | ⟨f, rest⟩⟩⟩⟩⟩⟩ <;>
        simp only [List.length_cons, List.length_nil] at hgt <;> try omega
      have six : lookedUpNames (URender_lightLoop loc p 0 (a :: b :: c :: d :: e :: f :: rest)) =
          fragmentShaderLightUniforms ++
            ("lightColor6" :: "lightPos6" :: "lightIntensity6" :: "highlightSize6" ::
              lookedUpNames (URender_lightLoop loc p 6 rest)) := rfl
      refine absurd ((h "lightColor6").1 ?_) declared6
      rw [six]
      exact List.mem_append_right _ (List.mem_cons_self _ _)
  · intro h name
    rcases lights with _ | ⟨a, _ | ⟨b, _ | ⟨c, _ | ⟨d, _ | ⟨e, _ | ⟨f, rest⟩⟩⟩⟩⟩⟩ <;>
      simp only [List.length_cons, List.length_nil] at h <;> try omega
    rw [five]

/-! ## Input handling -/

/-- C3: a poll with only `P` down flips the projection flag and changes nothing else; two
such polls restore the state.  From the initial state (perspective) the first poll makes
`URender` choose the orthographic projection and the second the perspective one again. -/
theorem projection_toggle {C : Type} (K : CameraClass C) (cam : C) :
    (∀ s : AppState C, UProcessInput K onlyP s = { s with perspective := !s.perspective }) ∧
    (∀ s : AppState C, toggleProjection (toggleProjection s) = s) ∧
    (∀ s : AppState C, UProcessInput K onlyP (UProcessInput K onlyP s) = s) ∧
    (initialState cam).perspective = true ∧
    URender_projection K (initialState cam) =
      Mat4.perspective (Angle.radians (K.Zoom cam)) (800 / 600) (1 / 10) 100 ∧
    (UProcessInput K onlyP (initialState cam)).perspective = false ∧
    URender_projection K (UProcessInput K onlyP (initialState cam)) =
      Mat4.ortho (-16) 16 (-12) 12 (1 / 10) 100 ∧
    (UProcessInput K onlyP (UProcessInput K onlyP (initialState cam))).perspective = true ∧
    URender_projection K (UProcessInput K onlyP (UProcessInput K onlyP (initialState cam))) =
      Mat4.perspective (Angle.radians (K.Zoom cam)) (800 / 600) (1 / 10) 100 := by
  have once : ∀ s : AppState C,
      UProcessInput K onlyP s = { s with perspective := !s.perspective } := by
    intro s
    simp [UProcessInput, moveOnKey, toggleProjection, onlyP]
  have invol : ∀ s : AppState C, toggleProjection (toggleProjection s) = s := by
    intro s
    cases s
    simp [toggleProjection]
  have twice : ∀ s : AppState C, UProcessInput K onlyP (UProcessInput K onlyP s) = s := by
    intro s
    rw [once, once]
    cases s
    simp
  have persp : URender_projection K (initialState cam) =
      Mat4.perspective (Angle.radians (K.Zoom cam)) (800 / 600) (1 / 10) 100 := by
    simp [URender_projection, initialState, WINDOW_WIDTH, WINDOW_HEIGHT]
  refine ⟨once, invol, twice, rfl, persp, ?_, ?_, ?_, ?_⟩
  · rw [once]; rfl
  · rw [once]
    simp only [URender_projection, initialState, WINDOW_WIDTH, WINDOW_HEIGHT]
    norm_num
  · rw [twice]; rfl
  · rw [twice]; exact persp

/-- C4: when the first-mouse flag is set, a cursor-move event at `(x, y)` forwards the
offset `(0, 0)` to the camera, stores `(x, y)` as the last position and clears the flag,
whatever the last position was; nothing else changes. -/
theorem first_mouse_event {C : Type} (K : CameraClass C) (s : AppState C) (x y : Rat)
    (h : s.gFirstMouse = true) :
    UMousePositionCallback K x y s =
      { s with
        gLastX := x
        gLastY := y
        gFirstMouse := false
        gCamera := K.ProcessMouseMovement s.gCamera 0 0 } := by
  simp [UMousePositionCallback, h]

/-- Witness of C4: the first event, at `(123, 45)`, on the initial state, whose last
position is the window centre `(400, 300)`. -/
theorem first_mouse_event_witness :
    (initialState freshCamera).gFirstMouse = true ∧
    UMousePositionCallback recordingCamera 123 45 (initialState freshCamera) =
      { initialState freshCamera with
        gLastX := 123
        gLastY := 45
        gFirstMouse := false
        gCamera := [CameraCall.ProcessMouseMovement 0 0] } :=
  ⟨rfl, first_mouse_event recordingCamera (initialState freshCamera) 123 45 rfl⟩

/-- C5: when the first-mouse flag is clear, a cursor-move event at `(x, y)` forwards the
offset `(x - gLastX, gLastY - y)` to the camera and then stores `(x, y)` as the last
position, changing nothing else; and an event displaced by `(10, 0)` from the event before
it forwards the offset `(10, 0)`. -/
theorem later_mouse_event {C : Type} (K : CameraClass C) (s : AppState C) (x y : Rat)
    (h : s.gFirstMouse = false) :
    UMousePositionCallback K x y s =
      { s with
        gLastX := x
        gLastY := y
        gCamera := K.ProcessMouseMovement s.gCamera (x - s.gLastX) (s.gLastY - y) } ∧
    ∀ (s0 : AppState C) (x0 y0 : Rat),
      (UMousePositionCallback K (x0 + 10) y0 (UMousePositionCallback K x0 y0 s0)).gCamera =
        K.ProcessMouseMovement (UMousePositionCallback K x0 y0 s0).gCamera 10 0 := by
  constructor
  · simp [UMousePositionCallback, h]
  · intro s0 x0 y0
    cases hf : s0.gFirstMouse <;> simp [UMousePositionCallback, hf]

/-- Witness of C5: after a first event at `(123, 45)`, an event at `(133, 40)` forwards
`(10, 5)`. -/
theorem later_mouse_event_witness :
    (UMousePositionCallback recordingCamera 123 45 (initialState freshCamera)).gFirstMouse =
      false ∧
    (UMousePositionCallback recordingCamera 133 40
        (UMousePositionCallback recordingCamera 123 45 (initialState freshCamera))).gCamera =
      [CameraCall.ProcessMouseMovement 0 0, CameraCall.ProcessMouseMovement 10 5] := by
  refine ⟨rfl, ?_⟩
  rw [(later_mouse_event recordingCamera
    (UMousePositionCallback recordingCamera 123 45 (initialState freshCamera)) 133 40 rfl).1]
  simp [UMousePositionCallback, initialState, recordingCamera, freshCamera]
  norm_num

theorem moveOnKey_gCamera {C : Type} (K : CameraClass C) (glfwGetKey : Key → Bool) (key : Key)
    (d : Camera_Movement) (s : AppState C) :
    (moveOnKey K glfwGetKey key d s).gCamera =
      if glfwGetKey key = true then K.ProcessKeyboard s.gCamera d s.gDeltaTime
      else s.gCamera := by
  cases h : glfwGetKey key <;> simp [moveOnKey, h]

theorem moveOnKey_gDeltaTime {C : Type} (K : CameraClass C) (glfwGetKey : Key → Bool)
    (key : Key) (d : Camera_Movement) (s : AppState C) :
    (moveOnKey K glfwGetKey key d s).gDeltaTime = s.gDeltaTime := by
  cases h : glfwGetKey key <;> simp [moveOnKey, h]

theorem ite_toggle_gCamera {C : Type} (b : Bool) (s : AppState C) :
    (if b = true then toggleProjection s else s).gCamera = s.gCamera := by
  cases b <;> rfl

theorem ite_close_gCamera {C : Type} (b : Bool) (s : AppState C) :
    (if b = true then { s with windowShouldClose := true } else s).gCamera = s.gCamera := by
  cases b <;> rfl

theorem ite_close_gDeltaTime {C : Type} (b : Bool) (s : AppState C) :
    (if b = true then { s with windowShouldClose := true } else s).gDeltaTime =
      s.gDeltaTime := by
  cases b <;> rfl

theorem foldl_map_filter_cons {α β γ : Type} (f : γ → β → γ) (g : α → β) (p : α → Bool)
    (x : α) (xs : List α) (c : γ) :
    (((x :: xs).filter p).map g).foldl f c =
      ((xs.filter p).map g).foldl f (if p x = true then f c (g x) else c) := by
  cases h : p x <;> simp [List.filter_cons, h]

/-- C6: in one poll `UProcessInput` calls `ProcessKeyboard` once, with `gDeltaTime`, for
every key that is down among `W`, `S`, `A`, `D`, `E`, `Q`, in this order and with the
directions `FORWARD`, `BACKWARD`, `LEFT`, `RIGHT`, `UP`, `DOWN`, and makes no call for a key
that is up: the camera after the poll is the camera before it with these calls applied, and
a recording camera has received exactly these calls. -/
theorem UProcessInput_camera_calls {C : Type} (K : CameraClass C) (glfwGetKey : Key → Bool) :
    (∀ s : AppState C,
      (UProcessInput K glfwGetKey s).gCamera =
        ((movementKeys.filter (fun kd => glfwGetKey kd.1)).map Prod.snd).foldl
          (fun c d => K.ProcessKeyboard c d s.gDeltaTime) s.gCamera) ∧
    (∀ s : AppState (List CameraCall),
      (UProcessInput recordingCamera glfwGetKey s).gCamera =
        s.gCamera ++ (movementKeys.filter (fun kd => glfwGetKey kd.1)).map
          (fun kd => CameraCall.ProcessKeyboard kd.2 s.gDeltaTime)) := by
  have general : ∀ {D : Type} (L : CameraClass D) (s : AppState D),
      (UProcessInput L glfwGetKey s).gCamera =
        ((movementKeys.filter (fun kd => glfwGetKey kd.1)).map Prod.snd).foldl
          (fun c d => L.ProcessKeyboard c d s.gDeltaTime) s.gCamera := by
    intro D L s
    simp only [UProcessInput, movementKeys, foldl_map_filter_cons, List.filter_nil,
      List.map_nil, List.foldl_nil, ite_toggle_gCamera, moveOnKey_gCamera,
      moveOnKey_gDeltaTime, ite_close_gCamera, ite_close_gDeltaTime]
  refine ⟨general K, fun s => ?_⟩
  rw [general recordingCamera s]
  generalize movementKeys.filter (fun kd => glfwGetKey kd.1) = pressed
  generalize s.gCamera = c
  induction pressed generalizing c with
  | nil => simp
  | cons kd rest ih =>
    simp only [List.map_cons, List.foldl_cons]
    rw [ih]
    simp [recordingCamera]

/-- C7: the projection `URender` computes is decided by the flag `perspective`: when set,
a perspective projection with the field of view `glm::radians(Zoom)`, aspect `800 / 600`,
near `0.1` and far `100`; when clear, an orthographic projection with left/right `-16`/`16`
and bottom/top `-12`/`12` (the window size divided by 50), near `0.1` and far `100`.  It is
the matrix uploaded to the uniform `projection` at the start of the frame. -/
theorem URender_projection_value {C : Type} (loc : UniformLocations) (K : CameraClass C)
    (s : AppState C) :
    URender_projection K s =
      (if s.perspective then
        Mat4.perspective (Angle.radians (K.Zoom s.gCamera)) (800 / 600) (1 / 10) 100
      else Mat4.ortho (-(800 / 50)) (800 / 50) (-(600 / 50)) (600 / 50) (1 / 10) 100) ∧
    Mat4.ortho (-(800 / 50)) (800 / 50) (-(600 / 50)) (600 / 50) (1 / 10) 100 =
      Mat4.ortho (-16) 16 (-12) 12 (1 / 10) 100 ∧
    (URender loc K s)[10]? =
      some (GLCall.glUniformMatrix4fv (loc s.shaderProgramId "projection")
        (URender_projection K s)) := by
  refine ⟨?_, ?_, ?_⟩
  · cases hp : s.perspective
    · simp only [URender_projection, hp, WINDOW_WIDTH, WINDOW_HEIGHT]
      norm_num
    · simp [URender_projection, hp, WINDOW_WIDTH, WINDOW_HEIGHT]
  · norm_num
  · simp [URender, URender_setup, uploadMatrices]

/-! ## The draw calls of a frame -/

theorem drawRecords_lightLoop (loc : UniformLocations) (q : GLuint) (lights : List GLLight) :
    ∀ (i : Nat) (p v : GLuint) (rest : List GLCall),
      drawRecords p v (URender_lightLoop loc q i lights ++ rest) = drawRecords p v rest := by
  induction lights with
  | nil => intro i p v rest; rfl
  | cons l ls ih =>
    intro i p v rest
    simp only [URender_lightLoop, URender_lightUniforms, List.append_assoc, List.cons_append,
      List.nil_append]
    simp only [drawRecords]
    exact ih (i + 1) p v rest

theorem drawRecords_lampLoop {C : Type} (loc : UniformLocations) (s : AppState C)
    (view projection : Mat4) (lights : List GLLight) :
    ∀ p v : GLuint,
      drawRecords p v (URender_lampLoop loc s view projection lights ++
        [GLCall.glBindVertexArray 0, GLCall.glUseProgram 0, GLCall.glfwSwapBuffers]) = [] := by
  induction lights with
  | nil => intro p v; rfl
  | cons l ls ih =>
    intro p v
    simp only [URender_lampLoop, URender_lamp, uploadMatrices, List.append_assoc,
      List.cons_append, List.nil_append]
    simp only [drawRecords]
    exact ih _ _

theorem drawRecords_drawObject {C : Type} (loc : UniformLocations) (s : AppState C)
    (model view projection : Mat4) (unit : Int) (vaoIx countIx : Fin 11) (p v : GLuint)
    (rest : List GLCall) :
    drawRecords p v (drawObject loc s model view projection unit vaoIx countIx ++ rest) =
      ⟨p, s.gMesh.vao vaoIx, GLenum.GL_TRIANGLES, 0, s.gMesh.nVertices countIx⟩ ::
        drawRecords p (s.gMesh.vao vaoIx) rest := by
  simp only [drawObject, uploadMatrices, List.append_assoc, List.cons_append, List.nil_append]
  simp only [drawRecords]

/-- The draw calls of one frame: ten, all with the lit program bound, each with vertex
array `vao[k]` bound and `nVertices[k]` vertices, for `k` = 2, 3, 7, 8, 4, 9, 5, 6, 10, 1
in this order. -/
theorem URender_drawRecords {C : Type} (loc : UniformLocations) (K : CameraClass C)
    (s : AppState C) (p v : GLuint) :
    drawRecords p v (URender loc K s) =
      ([2, 3, 7, 8, 4, 9, 5, 6, 10, 1] : List (Fin 11)).map (fun k =>
        (⟨s.shaderProgramId, s.gMesh.vao k, GLenum.GL_TRIANGLES, 0, s.gMesh.nVertices k⟩ :
          DrawRecord)) := by
  simp only [URender, URender_setup, URender_objects, uploadMatrices, List.append_assoc,
    List.cons_append, List.nil_append]
  simp only [drawRecords, drawRecords_lightLoop]
  simp only [drawRecords_drawObject, List.append_eq, List.nil_append, drawRecords_lampLoop,
    List.map_cons, List.map_nil]

/-- C8, as the program behaves: in every frame the draw calls of `URender` are issued with
the vertex arrays of milk body, milk top, cap top, cap side, donut box, donut, glass top,
glass side, milk plane and ground plane bound, in this order (the ground plane is drawn
last). -/
theorem URender_draw_order {C : Type} (loc : UniformLocations) (K : CameraClass C)
    (s : AppState C) (p v : GLuint) :
    (drawRecords p v (URender loc K s)).map DrawRecord.vao =
      [ milkBody, milkTop, capTop, capSide, donutBox, donut, glassTop, glassSide, milkPlane,
        planeGround ].map s.gMesh.vao := by
  rw [URender_drawRecords]
  rfl

/-- C8, as stated, fails: in the frame of `sampleState`, whose vertex arrays have distinct
handles, the vertex arrays are not drawn in the order ground plane, milk body, milk top,
cap top, cap side, donut box, donut, glass top, glass side, milk plane. -/
theorem URender_draw_order_not_plane_first :
    (drawRecords 0 0 (URender sampleLocations recordingCamera sampleState)).map
        DrawRecord.vao ≠
      [ planeGround, milkBody, milkTop, capTop, capSide, donutBox, donut, glassTop, glassSide,
        milkPlane ].map sampleState.gMesh.vao := by
  rw [URender_drawRecords]
  decide

/-! ## The lamp loop -/

theorem URender_setup_length {C : Type} (loc : UniformLocations) (K : CameraClass C)
    (s : AppState C) : (URender_setup loc K s).length = 15 + 8 * s.gSceneLights.length := by
  simp only [URender_setup, uploadMatrices, List.length_append, lightLoop_length,
    List.length_cons, List.length_nil]
  omega

theorem URender_objects_length {C : Type} (loc : UniformLocations) (K : CameraClass C)
    (s : AppState C) : (URender_objects loc K s).length = 100 := rfl

theorem URender_lampLoop_eq_flatMap {C : Type} (loc : UniformLocations) (s : AppState C)
    (view projection : Mat4) (lights : List GLLight) :
    URender_lampLoop loc s view projection lights =
      lights.flatMap (fun l => URender_lamp loc s view projection l) := by
  induction lights with
  | nil => rfl
  | cons l ls ih => simp only [URender_lampLoop, List.flatMap_cons, ih]

/-- C9, as the program behaves: from position `115 + 8 * n` on (`n` the number of lights)
the frame consists, for each light in order, of binding that light's own program and the
light-marker vertex array `vao[0]`, looking up `model`, `view` and `projection` in that
program and uploading `translate(lightPosition) * scale(lightScale)`, the view and the
projection, followed by the three closing calls.  None of these calls is a draw call: the
light markers are not drawn, and the frame has exactly ten draw calls, all issued with the
lit program bound. -/
theorem URender_lamps_not_drawn {C : Type} (loc : UniformLocations) (K : CameraClass C)
    (s : AppState C) :
    (URender loc K s).drop (115 + 8 * s.gSceneLights.length) =
      s.gSceneLights.flatMap (fun l =>
        [ GLCall.glUseProgram l.shaderProgram,
          GLCall.glBindVertexArray (s.gMesh.vao lightMarker),
          GLCall.glGetUniformLocation l.shaderProgram "model",
          GLCall.glGetUniformLocation l.shaderProgram "view",
          GLCall.glGetUniformLocation l.shaderProgram "projection",
          GLCall.glUniformMatrix4fv (loc l.shaderProgram "model")
            (Mat4.mul (Mat4.translate Mat4.identity l.lightPosition)
              (Mat4.scale Mat4.identity l.lightScale)),
          GLCall.glUniformMatrix4fv (loc l.shaderProgram "view") (K.GetViewMatrix s.gCamera),
          GLCall.glUniformMatrix4fv (loc l.shaderProgram "projection")
            (URender_projection K s) ]) ++
      [ GLCall.glBindVertexArray 0, GLCall.glUseProgram 0, GLCall.glfwSwapBuffers ] ∧
    (∀ c ∈ (URender loc K s).drop (115 + 8 * s.gSceneLights.length), isDraw c = false) ∧
    (∀ p v : GLuint, (drawRecords p v (URender loc K s)).length = 10) ∧
    (∀ (p v : GLuint), ∀ d ∈ drawRecords p v (URender loc K s),
      d.program = s.shaderProgramId) := by
  have tail : (URender loc K s).drop (115 + 8 * s.gSceneLights.length) =
      s.gSceneLights.flatMap (fun l =>
        URender_lamp loc s (K.GetViewMatrix s.gCamera) (URender_projection K s) l) ++
      [ GLCall.glBindVertexArray 0, GLCall.glUseProgram 0, GLCall.glfwSwapBuffers ] := by
    have hlen : (URender_setup loc K s ++ URender_objects loc K s).length =
        115 + 8 * s.gSceneLights.length := by
      rw [List.length_append, URender_setup_length, URender_objects_length]
      omega
    have hsplit : URender loc K s =
        (URender_setup loc K s ++ URender_objects loc K s) ++
          (URender_lampLoop loc s (K.GetViewMatrix s.gCamera) (URender_projection K s)
            s.gSceneLights ++
          [ GLCall.glBindVertexArray 0, GLCall.glUseProgram 0, GLCall.glfwSwapBuffers ]) := by
      simp only [URender, List.append_assoc]
    rw [hsplit, ← hlen, List.drop_left, URender_lampLoop_eq_flatMap]
  refine ⟨tail, ?_, ?_, ?_⟩
  · rw [tail]
    intro c hc
    simp only [List.mem_append, List.mem_flatMap, URender_lamp, uploadMatrices,
      List.cons_append, List.nil_append, List.mem_cons, List.not_mem_nil, or_false] at hc
    rcases hc with ⟨l, _, h | h | h | h | h | h | h | h⟩ | h | h | h <;> subst h <;> rfl
  · intro p v
    rw [URender_drawRecords]
    rfl
  · intro p v d hd
    rw [URender_drawRecords] at hd
    simp only [List.map_cons, List.map_nil, List.mem_cons, List.not_mem_nil, or_false] at hd
    rcases hd with h | h | h | h | h | h | h | h | h | h <;> subst h <;> rfl

/-- C9, as stated, fails: in the frame of `sampleState`, with five lights whose programs
are 2 to 6 and light-marker vertex array 1, no draw call is issued with the light-marker
vertex array bound, and none with a lamp program bound; five would be needed. -/
theorem URender_no_light_marker_draw :
    ((drawRecords 0 0 (URender sampleLocations recordingCamera sampleState)).filter
        (fun d => decide (d.vao = sampleState.gMesh.vao lightMarker))).length ≠ 5 ∧
    ((drawRecords 0 0 (URender sampleLocations recordingCamera sampleState)).filter
        (fun d => decide (d.program ∈
          sampleState.gSceneLights.map GLLight.shaderProgram))).length ≠ 5 := by
  rw [URender_drawRecords]
  decide

/-! ## Vertex counts -/

theorem lightSection_sizes (k : Nat) (coords : List Rat) :
    (lightSection (3 * k) coords).nVertices * floatsOfVertex (lightSection (3 * k) coords) *
        sizeofGLfloat = (lightSection (3 * k) coords).bufferSize ∧
    (lightSection (3 * k) coords).bufferSize %
        (floatsOfVertex (lightSection (3 * k) coords) * sizeofGLfloat) = 0 ∧
    ∀ a ∈ (lightSection (3 * k) coords).attribs,
      a.stride = floatsOfVertex (lightSection (3 * k) coords) * sizeofGLfloat := by
  refine ⟨?_, ?_, ?_⟩
  · show (3 * k * 4) / (4 * 3) * 3 * 4 = 3 * k * 4
    omega
  · show (3 * k * 4) % (3 * 4) = 0
    omega
  · intro a ha
    simp only [lightSection, List.mem_cons, List.not_mem_nil, or_false] at ha
    subst ha
    rfl

theorem objectSection_sizes (k : Nat) (coords : List Rat) :
    (objectSection (8 * k) coords).nVertices * floatsOfVertex (objectSection (8 * k) coords) *
        sizeofGLfloat = (objectSection (8 * k) coords).bufferSize ∧
    (objectSection (8 * k) coords).bufferSize %
        (floatsOfVertex (objectSection (8 * k) coords) * sizeofGLfloat) = 0 ∧
    ∀ a ∈ (objectSection (8 * k) coords).attribs,
      a.stride = floatsOfVertex (objectSection (8 * k) coords) * sizeofGLfloat := by
  refine ⟨?_, ?_, ?_⟩
  · show (8 * k * 4) / (4 * (3 + 3 + 2)) * 8 * 4 = 8 * k * 4
    omega
  · show (8 * k * 4) % (8 * 4) = 0
    omega
  · intro a ha
    simp only [objectSection, List.mem_cons, List.not_mem_nil, or_false] at ha
    rcases ha with h | h | h <;> subst h <;> rfl

/-- C10: whatever the coordinate tables hold, the vertex counts `UCreateMesh` stores for
meshes 0 to 10 are 36, 6, 24, 18, 30, 24, 48, 24, 48, 384, 6; a vertex has 3 floats for
mesh 0 (position only) and 8 = 3 + 3 + 2 floats for every other mesh; and for each mesh the
vertex count times the floats of a vertex times the float size equals the byte size passed
to `glBufferData`, that size is a multiple of the vertex size, and the vertex size is the
stride of every attribute of the mesh. -/
theorem UCreateMesh_vertex_counts (c : Coordinates) :
    (UCreateMesh_sections c).map MeshSection.nVertices =
      [36, 6, 24, 18, 30, 24, 48, 24, 48, 384, 6] ∧
    (UCreateMesh_sections c).map floatsOfVertex = [3, 8, 8, 8, 8, 8, 8, 8, 8, 8, 8] ∧
    sizeofGLfloat = 4 ∧
    ∀ m ∈ UCreateMesh_sections c,
      m.nVertices * floatsOfVertex m * sizeofGLfloat = m.bufferSize ∧
      m.bufferSize % (floatsOfVertex m * sizeofGLfloat) = 0 ∧
      ∀ a ∈ m.attribs, a.stride = floatsOfVertex m * sizeofGLfloat := by
  refine ⟨rfl, rfl, rfl, ?_⟩
  intro m hm
  simp only [UCreateMesh_sections, List.mem_cons, List.not_mem_nil, or_false] at hm
  rcases hm with h | h | h | h | h | h | h | h | h | h | h <;> subst h
  · exact lightSection_sizes 36 _
  · exact objectSection_sizes 6 _
  · exact objectSection_sizes 24 _
  · exact objectSection_sizes 18 _
  · exact objectSection_sizes 30 _
  · exact objectSection_sizes 24 _
  · exact objectSection_sizes 48 _
  · exact objectSection_sizes 24 _
  · exact objectSection_sizes 48 _
  · exact objectSection_sizes 384 _
  · exact objectSection_sizes 6 _

/-! ## Creating a texture -/

/-- C11: `UCreateTexture` returns true exactly when the decoder returns an image whose
channel count is 3 or 4; when decoding fails, and for every other channel count, it
returns false. -/
theorem UCreateTexture_ok_iff (stbi_load : String → Option Image) (newName : GLuint)
    (filename : String) (textureId : GLuint) :
    (UCreateTexture stbi_load newName filename textureId).ok = true ↔
      ∃ image, stbi_load filename = some image ∧ (image.channels = 3 ∨ image.channels = 4) := by
  unfold UCreateTexture
  cases h : stbi_load filename with
  | none => simp
  | some image =>
    by_cases h3 : image.channels = 3
    · simp [h3]
    · by_cases h4 : image.channels = 4
      · simp [h4]
      · simp [h3, h4]

/-- C12, what the program does: when the decoder returns an image with 1 channel, or with
2, `UCreateTexture` returns false after `glGenTextures` and `glBindTexture`: on return the
caller's variable holds the newly generated name, that texture is still bound to
`GL_TEXTURE_2D`, and `stbi_image_free` has not been called. -/
theorem UCreateTexture_unsupported_channels (width height : Int) (newName : GLuint)
    (filename : String) (textureId bound : GLuint) :
    (UCreateTexture (fun _ => some ⟨width, height, 1⟩) newName filename textureId).ok = false ∧
    (UCreateTexture (fun _ => some ⟨width, height, 1⟩) newName filename textureId).textureId =
      newName ∧
    generatedTextures
      (UCreateTexture (fun _ => some ⟨width, height, 1⟩) newName filename textureId).calls =
      [newName] ∧
    boundTexture bound
      (UCreateTexture (fun _ => some ⟨width, height, 1⟩) newName filename textureId).calls =
      newName ∧
    countCalls isImageFree
      (UCreateTexture (fun _ => some ⟨width, height, 1⟩) newName filename textureId).calls = 0 ∧
    (UCreateTexture (fun _ => some ⟨width, height, 2⟩) newName filename textureId).ok = false ∧
    (UCreateTexture (fun _ => some ⟨width, height, 2⟩) newName filename textureId).textureId =
      newName ∧
    boundTexture bound
      (UCreateTexture (fun _ => some ⟨width, height, 2⟩) newName filename textureId).calls =
      newName ∧
    boundTexture bound
      (UCreateTexture (fun _ => some ⟨width, height, 3⟩) newName filename textureId).calls = 0 := by
  exact ⟨rfl, rfl, rfl, rfl, rfl, rfl, rfl, rfl, rfl⟩

/-! ## Creating a shader program -/

/-- C14: `UCreateShaderProgram` returns true exactly when the vertex stage compiles, the
fragment stage compiles and the program links.  It writes nothing on success and exactly
one entry on failure, for the first step that fails in the order vertex compile, fragment
compile, link, made of the heading of that step and its log.  The fragment stage is
compiled only when the vertex stage compiled, and the program is linked only when both
stages compiled. -/
theorem UCreateShaderProgram_result (a : ShaderAnswers) (vtx frag : ShaderSource) :
    (UCreateShaderProgram a vtx frag).ok =
      (a.vertexCompiled && a.fragmentCompiled && a.linked) ∧
    (UCreateShaderProgram a vtx frag).output =
      (if a.vertexCompiled = false then
        [ "ERROR::SHADER::VERTEX::COMPILATION_FAILED\n" ++ a.vertexLog ]
      else if a.fragmentCompiled = false then
        [ "ERROR::SHADER::FRAGMENT::COMPILATION_FAILED\n" ++ a.fragmentLog ]
      else if a.linked = false then
        [ "ERROR::SHADER::PROGRAM::LINKING_FAILED\n" ++ a.linkLog ]
      else []) ∧
    countCalls isCompile (UCreateShaderProgram a vtx frag).calls =
      (if a.vertexCompiled = true then 2 else 1) ∧
    countCalls isLink (UCreateShaderProgram a vtx frag).calls =
      (if a.vertexCompiled = true ∧ a.fragmentCompiled = true then 1 else 0) ∧
    (UCreateShaderProgram a vtx frag).programId = a.program := by
  cases hv : a.vertexCompiled <;> cases hf : a.fragmentCompiled <;> cases hl : a.linked <;>
    simp [UCreateShaderProgram, hv, hf, hl, countCalls, isCompile, isLink]

/-! ## Releasing resources -/

theorem teardown_eq {C : Type} (env : Env) (s : AppState C) :
    teardown env s =
      [ GLCall.glDeleteVertexArrays [s.gMesh.vao 0],
        GLCall.glDeleteBuffers [s.gMesh.vbo 0],
        GLCall.glGenTextures (env.destroyTextureName 0),
        GLCall.glGenTextures (env.destroyTextureName 1),
        GLCall.glGenTextures (env.destroyTextureName 2),
        GLCall.glGenTextures (env.destroyTextureName 3),
        GLCall.glGenTextures (env.destroyTextureName 4),
        GLCall.glGenTextures (env.destroyTextureName 5),
        GLCall.glGenTextures (env.destroyTextureName 6),
        GLCall.glGenTextures (env.destroyTextureName 7),
        GLCall.glGenTextures (env.destroyTextureName 8),
        GLCall.glGenTextures (env.destroyTextureName 9),
        GLCall.glDeleteProgram s.shaderProgramId ] ++
      s.gSceneLights.map (fun light => GLCall.glDeleteProgram light.shaderProgram) := by
  have hl : s.gSceneLights.flatMap (fun light => UDestroyShaderProgram light.shaderProgram) =
      s.gSceneLights.map (fun light => GLCall.glDeleteProgram light.shaderProgram) := by
    induction s.gSceneLights with
    | nil => rfl
    | cons l ls ih =>
      rw [List.flatMap_cons, ih]
      rfl
  simp only [teardown, hl]
  rfl

theorem generatedVertexArrays_append (a b : List GLCall) :
    generatedVertexArrays (a ++ b) = generatedVertexArrays a ++ generatedVertexArrays b := by
  simp [generatedVertexArrays, List.filterMap_append]

theorem generatedBuffers_append (a b : List GLCall) :
    generatedBuffers (a ++ b) = generatedBuffers a ++ generatedBuffers b := by
  simp [generatedBuffers, List.filterMap_append]

theorem loadedFiles_append (a b : List GLCall) :
    loadedFiles (a ++ b) = loadedFiles a ++ loadedFiles b := by
  simp [loadedFiles, List.filterMap_append]

theorem UCreateTexture_generates_no_mesh_name (stbi_load : String → Option Image)
    (newName : GLuint) (filename : String) (textureId : GLuint) :
    generatedVertexArrays (UCreateTexture stbi_load newName filename textureId).calls = [] ∧
    generatedBuffers (UCreateTexture stbi_load newName filename textureId).calls = [] ∧
    loadedFiles (UCreateTexture stbi_load newName filename textureId).calls = [filename] := by
  unfold UCreateTexture
  cases h : stbi_load filename with
  | none => simp [generatedVertexArrays, generatedBuffers, loadedFiles]
  | some image =>
    by_cases h3 : image.channels = 3
    · simp [h3, generatedVertexArrays, generatedBuffers, loadedFiles]
    · by_cases h4 : image.channels = 4
      · simp [h4, generatedVertexArrays, generatedBuffers, loadedFiles]
      · simp [h3, h4, generatedVertexArrays, generatedBuffers, loadedFiles]

theorem loadTexture_calls {C : Type} (env : Env) (n : Nat) (f : String)
    (get : AppState C → GLuint) (set : AppState C → GLuint → AppState C) (w : Run C) :
    generatedVertexArrays (loadTexture env n f get set w).calls =
      generatedVertexArrays w.calls ∧
    generatedBuffers (loadTexture env n f get set w).calls = generatedBuffers w.calls ∧
    loadedFiles (loadTexture env n f get set w).calls = loadedFiles w.calls ++ [f] := by
  obtain ⟨h1, h2, h3⟩ :=
    UCreateTexture_generates_no_mesh_name env.stbi_load (env.textureName n) f (get w.app)
  simp only [loadTexture, generatedVertexArrays_append, generatedBuffers_append,
    loadedFiles_append, h1, h2, h3, List.append_nil, and_self]

theorem sectionCalls_names (vao vbo : GLuint) (m : MeshSection) :
    generatedVertexArrays (sectionCalls vao vbo m) = [vao] ∧
    generatedBuffers (sectionCalls vao vbo m) = [vbo] ∧
    loadedFiles (sectionCalls vao vbo m) = [] := by
  have h : ∀ attribs : List VertexAttrib,
      generatedVertexArrays (attribs.flatMap (fun a =>
        [ GLCall.glVertexAttribPointer a, GLCall.glEnableVertexAttribArray a.index ])) = [] ∧
      generatedBuffers (attribs.flatMap (fun a =>
        [ GLCall.glVertexAttribPointer a, GLCall.glEnableVertexAttribArray a.index ])) = [] ∧
      loadedFiles (attribs.flatMap (fun a =>
        [ GLCall.glVertexAttribPointer a, GLCall.glEnableVertexAttribArray a.index ])) = [] := by
    intro attribs
    induction attribs with
    | nil => exact ⟨rfl, rfl, rfl⟩
    | cons a rest ih =>
      obtain ⟨i1, i2, i3⟩ := ih
      rw [List.flatMap_cons, generatedVertexArrays_append, generatedBuffers_append,
        loadedFiles_append, i1, i2, i3]
      exact ⟨rfl, rfl, rfl⟩
  obtain ⟨h1, h2, h3⟩ := h m.attribs
  simp only [sectionCalls, generatedVertexArrays_append, generatedBuffers_append,
    loadedFiles_append, h1, h2, h3, List.append_nil]
  exact ⟨rfl, rfl, rfl⟩

theorem loadTexture_output {C : Type} (env : Env) (n : Nat) (f : String)
    (get : AppState C → GLuint) (set : AppState C → GLuint → AppState C) (w : Run C) :
    (loadTexture env n f get set w).output = w.output ++ textureReports env.stbi_load f := by
  unfold loadTexture UCreateTexture textureReports
  cases h : env.stbi_load f with
  | none => simp
  | some image =>
    by_cases h3 : image.channels = 3
    · simp [h3]
    · by_cases h4 : image.channels = 4
      · simp [h4]
      · simp [h3, h4]

theorem meshSections_zip (c : Coordinates) :
    List.zip (List.finRange 11) (UCreateMesh_sections c) =
      [ (0, lightSection 108 c.getLightCoords),
        (1, objectSection 48 c.getPlaneCoords),
        (2, objectSection 192 c.getMilkBotCoords),
        (3, objectSection 144 c.getMilkTopCoords),
        (4, objectSection 240 c.getBoxCoords),
        (5, objectSection 192 c.getGlassTopcoords),
        (6, objectSection 384 c.getGlassSideCoords),
        (7, objectSection 192 c.getCapTopCoords),
        (8, objectSection 384 c.getCapSideCoords),
        (9, objectSection 3072 c.getDonutCoords),
        (10, objectSection 48 c.getMilkPlaneCoords) ] := rfl

theorem UCreateMesh_reads {C : Type} (env : Env) (w : Run C) :
    generatedVertexArrays (UCreateMesh env w).calls =
      generatedVertexArrays w.calls ++ (List.finRange 11).map env.vertexArrayName ∧
    generatedBuffers (UCreateMesh env w).calls =
      generatedBuffers w.calls ++ (List.finRange 11).map env.bufferName ∧
    loadedFiles (UCreateMesh env w).calls = loadedFiles w.calls ++ textureFiles ∧
    (UCreateMesh env w).output =
      w.output ++ textureFiles.flatMap (textureReports env.stbi_load) := by
  simp only [UCreateMesh, loadTexture_calls, loadTexture_output, meshSections_zip,
    generatedVertexArrays_append, generatedBuffers_append, loadedFiles_append,
    List.flatMap_cons, List.flatMap_nil, sectionCalls_names, textureFiles, List.append_assoc,
    List.append_nil, List.nil_append, List.cons_append]
  exact ⟨rfl, rfl, trivial, trivial⟩

/-- C17, what the program does: `UCreateMesh` generates eleven vertex arrays and eleven
buffers and stores their names in `gMesh`, but `UDestroyMesh` passes the count 1 to
`glDeleteVertexArrays` and `glDeleteBuffers`, so the calls after the render loop delete
only `vao[0]` and `vbo[0]`; the other ten of each are never deleted. -/
theorem UDestroyMesh_deletes_first_only {C : Type} (env : Env) (w : Run C) (s : AppState C) :
    generatedVertexArrays (UCreateMesh env w).calls =
      generatedVertexArrays w.calls ++ (List.finRange 11).map env.vertexArrayName ∧
    generatedBuffers (UCreateMesh env w).calls =
      generatedBuffers w.calls ++ (List.finRange 11).map env.bufferName ∧
    (UCreateMesh env w).app.gMesh.vao = env.vertexArrayName ∧
    (UCreateMesh env w).app.gMesh.vbo = env.bufferName ∧
    UDestroyMesh s.gMesh =
      [ GLCall.glDeleteVertexArrays [s.gMesh.vao 0], GLCall.glDeleteBuffers [s.gMesh.vbo 0] ] ∧
    deletedVertexArrays (teardown env s) = [s.gMesh.vao 0] ∧
    deletedBuffers (teardown env s) = [s.gMesh.vbo 0] := by
  refine ⟨(UCreateMesh_reads env w).1, (UCreateMesh_reads env w).2.1, rfl, rfl, rfl, ?_, ?_⟩
  · rw [teardown_eq]
    simp [deletedVertexArrays, List.flatMap_append, List.flatMap_map]
  · rw [teardown_eq]
    simp [deletedBuffers, List.flatMap_append, List.flatMap_map]

theorem generatedTextures_deletePrograms (lights : List GLLight) :
    generatedTextures (lights.map (fun light => GLCall.glDeleteProgram light.shaderProgram)) =
      [] := by
  induction lights with
  | nil => rfl
  | cons l ls ih =>
    simp only [generatedTextures, List.map_cons, List.filterMap_cons] at ih ⊢
    exact ih

/-- C18, what the program does: `UDestroyTexture` calls `glGenTextures`, not a deletion:
each of the ten calls after the render loop generates one more texture name, and no call
made after the render loop deletes a texture (the only deletions are those of `vao[0]`,
`vbo[0]` and the programs). -/
theorem UDestroyTexture_generates {C : Type} (env : Env) (s : AppState C)
    (newName textureId : GLuint) :
    UDestroyTexture newName textureId = [ GLCall.glGenTextures newName ] ∧
    generatedTextures (teardown env s) = (List.range 10).map env.destroyTextureName ∧
    teardown env s =
      [ GLCall.glDeleteVertexArrays [s.gMesh.vao 0],
        GLCall.glDeleteBuffers [s.gMesh.vbo 0],
        GLCall.glGenTextures (env.destroyTextureName 0),
        GLCall.glGenTextures (env.destroyTextureName 1),
        GLCall.glGenTextures (env.destroyTextureName 2),
        GLCall.glGenTextures (env.destroyTextureName 3),
        GLCall.glGenTextures (env.destroyTextureName 4),
        GLCall.glGenTextures (env.destroyTextureName 5),
        GLCall.glGenTextures (env.destroyTextureName 6),
        GLCall.glGenTextures (env.destroyTextureName 7),
        GLCall.glGenTextures (env.destroyTextureName 8),
        GLCall.glGenTextures (env.destroyTextureName 9),
        GLCall.glDeleteProgram s.shaderProgramId ] ++
      s.gSceneLights.map (fun light => GLCall.glDeleteProgram light.shaderProgram) := by
  refine ⟨rfl, ?_, teardown_eq env s⟩
  rw [teardown_eq]
  have h := generatedTextures_deletePrograms s.gSceneLights
  simp only [generatedTextures, List.filterMap_append] at h ⊢
  rw [h]
  rfl

/-! ## The calls of the render loop -/

theorem lightLoop_frameCalls (loc : UniformLocations) (q : GLuint) (lights : List GLLight) :
    ∀ i : Nat, (URender_lightLoop loc q i lights).all (fun c => isFrameCall c && !isSwap c) =
      true := by
  induction lights with
  | nil => intro i; rfl
  | cons l ls ih =>
    intro i
    rw [URender_lightLoop, List.all_append, ih (i + 1)]
    rfl

theorem lampLoop_frameCalls {C : Type} (loc : UniformLocations) (s : AppState C)
    (view projection : Mat4) (lights : List GLLight) :
    (URender_lampLoop loc s view projection lights).all (fun c => isFrameCall c && !isSwap c) =
      true := by
  induction lights with
  | nil => rfl
  | cons l ls ih =>
    rw [URender_lampLoop, List.all_append, ih]
    rfl

/-- The calls of `URender`: calls of the render loop that are not `glfwSwapBuffers`,
followed by the three closing calls. -/
theorem URender_frameCalls {C : Type} (loc : UniformLocations) (K : CameraClass C)
    (s : AppState C) :
    ∃ body : List GLCall,
      URender loc K s =
        body ++ [ GLCall.glBindVertexArray 0, GLCall.glUseProgram 0, GLCall.glfwSwapBuffers ] ∧
      body.all (fun c => isFrameCall c && !isSwap c) = true := by
  refine ⟨URender_setup loc K s ++ URender_objects loc K s ++
    URender_lampLoop loc s (K.GetViewMatrix s.gCamera) (URender_projection K s) s.gSceneLights,
    rfl, ?_⟩
  rw [List.all_append, List.all_append, lampLoop_frameCalls]
  have hsetup : (URender_setup loc K s).all (fun c => isFrameCall c && !isSwap c) = true := by
    simp only [URender_setup, List.all_append, lightLoop_frameCalls]
    rfl
  have hobjects : (URender_objects loc K s).all (fun c => isFrameCall c && !isSwap c) =
      true := rfl
  rw [hsetup, hobjects]
  rfl

theorem frameCall_reads (c : GLCall) (h : (isFrameCall c && !isSwap c) = true) :
    isSwap c = false ∧ createdProgram c = none ∧ deletedProgram c = none ∧
      isFrameCall c = true := by
  revert h
  cases c <;> first
    | exact fun _ => ⟨rfl, rfl, rfl, rfl⟩
    | exact fun h => Bool.noConfusion h

theorem frameCall_programs (c : GLCall) (h : isFrameCall c = true) :
    createdProgram c = none ∧ deletedProgram c = none := by
  revert h
  cases c <;> first
    | exact fun _ => ⟨rfl, rfl⟩
    | exact fun h => Bool.noConfusion h

theorem all_frameCalls_reads (calls : List GLCall)
    (h : calls.all (fun c => isFrameCall c && !isSwap c) = true) :
    countCalls isSwap calls = 0 ∧ calls.filterMap createdProgram = [] ∧
      calls.filterMap deletedProgram = [] ∧ calls.all isFrameCall = true := by
  induction calls with
  | nil => exact ⟨rfl, rfl, rfl, rfl⟩
  | cons c rest ih =>
    rw [List.all_cons, Bool.and_eq_true] at h
    obtain ⟨i1, i2, i3, i4⟩ := ih h.2
    obtain ⟨c1, c2, c3, c4⟩ := frameCall_reads c h.1
    unfold countCalls at i1 ⊢
    refine ⟨?_, ?_, ?_, ?_⟩
    · rw [List.countP_cons_of_neg _ _ (by simp [c1]), i1]
    · rw [List.filterMap_cons_none c2, i2]
    · rw [List.filterMap_cons_none c3, i3]
    · rw [List.all_cons, c4, i4]; rfl

theorem all_frameCalls_programs (calls : List GLCall) (h : calls.all isFrameCall = true) :
    calls.filterMap createdProgram = [] ∧ calls.filterMap deletedProgram = [] := by
  induction calls with
  | nil => exact ⟨rfl, rfl⟩
  | cons c rest ih =>
    rw [List.all_cons, Bool.and_eq_true] at h
    obtain ⟨i1, i2⟩ := ih h.2
    obtain ⟨c1, c2⟩ := frameCall_programs c h.1
    exact ⟨by rw [List.filterMap_cons_none c1, i1], by rw [List.filterMap_cons_none c2, i2]⟩

theorem URender_swaps_once {C : Type} (loc : UniformLocations) (K : CameraClass C)
    (s : AppState C) :
    countCalls isSwap (URender loc K s) = 1 ∧ (URender loc K s).all isFrameCall = true := by
  obtain ⟨body, hbody, hall⟩ := URender_frameCalls loc K s
  obtain ⟨h1, _, _, h4⟩ := all_frameCalls_reads body hall
  unfold countCalls at h1 ⊢
  rw [hbody, List.countP_append, h1, List.all_append, h4]
  exact ⟨rfl, rfl⟩

/-! ## The state through the render loop -/

theorem moveOnKey_fields {C : Type} (K : CameraClass C) (glfwGetKey : Key → Bool) (key : Key)
    (d : Camera_Movement) (s : AppState C) :
    (moveOnKey K glfwGetKey key d s).windowShouldClose = s.windowShouldClose ∧
    (moveOnKey K glfwGetKey key d s).shaderProgramId = s.shaderProgramId ∧
    (moveOnKey K glfwGetKey key d s).gSceneLights = s.gSceneLights := by
  unfold moveOnKey
  split <;> exact ⟨rfl, rfl, rfl⟩

theorem UProcessInput_fields {C : Type} (K : CameraClass C) (glfwGetKey : Key → Bool)
    (s : AppState C) :
    (UProcessInput K glfwGetKey s).windowShouldClose =
      (glfwGetKey Key.GLFW_KEY_ESCAPE || s.windowShouldClose) ∧
    (UProcessInput K glfwGetKey s).shaderProgramId = s.shaderProgramId ∧
    (UProcessInput K glfwGetKey s).gSceneLights = s.gSceneLights := by
  have toggle : ∀ (b : Bool) (t : AppState C),
      (if b = true then toggleProjection t else t).windowShouldClose = t.windowShouldClose ∧
      (if b = true then toggleProjection t else t).shaderProgramId = t.shaderProgramId ∧
      (if b = true then toggleProjection t else t).gSceneLights = t.gSceneLights := by
    intro b t
    cases b <;> exact ⟨rfl, rfl, rfl⟩
  have close : ∀ (b : Bool) (t : AppState C),
      (if b = true then { t with windowShouldClose := true } else t).windowShouldClose =
        (b || t.windowShouldClose) ∧
      (if b = true then { t with windowShouldClose := true } else t).shaderProgramId =
        t.shaderProgramId ∧
      (if b = true then { t with windowShouldClose := true } else t).gSceneLights =
        t.gSceneLights := by
    intro b t
    cases b <;> exact ⟨rfl, rfl, rfl⟩
  simp only [UProcessInput]
  refine ⟨?_, ?_, ?_⟩
  · rw [(toggle _ _).1, (moveOnKey_fields _ _ _ _ _).1, (moveOnKey_fields _ _ _ _ _).1,
      (moveOnKey_fields _ _ _ _ _).1, (moveOnKey_fields _ _ _ _ _).1,
      (moveOnKey_fields _ _ _ _ _).1, (moveOnKey_fields _ _ _ _ _).1, (close _ _).1]
  · rw [(toggle _ _).2.1, (moveOnKey_fields _ _ _ _ _).2.1, (moveOnKey_fields _ _ _ _ _).2.1,
      (moveOnKey_fields _ _ _ _ _).2.1, (moveOnKey_fields _ _ _ _ _).2.1,
      (moveOnKey_fields _ _ _ _ _).2.1, (moveOnKey_fields _ _ _ _ _).2.1, (close _ _).2.1]
  · rw [(toggle _ _).2.2, (moveOnKey_fields _ _ _ _ _).2.2, (moveOnKey_fields _ _ _ _ _).2.2,
      (moveOnKey_fields _ _ _ _ _).2.2, (moveOnKey_fields _ _ _ _ _).2.2,
      (moveOnKey_fields _ _ _ _ _).2.2, (moveOnKey_fields _ _ _ _ _).2.2, (close _ _).2.2]

theorem dispatch_fields {C : Type} (K : CameraClass C) (e : WindowEvent) (w : Run C) :
    (dispatch K e w).app.windowShouldClose = (isClose e || w.app.windowShouldClose) ∧
    (dispatch K e w).app.shaderProgramId = w.app.shaderProgramId ∧
    (dispatch K e w).app.gSceneLights = w.app.gSceneLights ∧
    (dispatch K e w).output = w.output ∧
    ∃ added : List GLCall, (dispatch K e w).calls = w.calls ++ added ∧
      added.all (fun c => isFrameCall c && !isSwap c) = true := by
  cases e with
  | cursorPos x y =>
    refine ⟨?_, ?_, ?_, rfl, [], (List.append_nil _).symm, rfl⟩ <;>
      cases h : w.app.gFirstMouse <;> simp [dispatch, UMousePositionCallback, h, isClose]
  | scroll x y => exact ⟨rfl, rfl, rfl, rfl, [], (List.append_nil _).symm, rfl⟩
  | framebufferSize width height => exact ⟨rfl, rfl, rfl, rfl, _, rfl, rfl⟩
  | close => exact ⟨rfl, rfl, rfl, rfl, [], (List.append_nil _).symm, rfl⟩

theorem glfwPollEvents_fields {C : Type} (K : CameraClass C) (events : List WindowEvent) :
    ∀ w : Run C,
      (glfwPollEvents K events w).app.windowShouldClose =
        (events.any isClose || w.app.windowShouldClose) ∧
      (glfwPollEvents K events w).app.shaderProgramId = w.app.shaderProgramId ∧
      (glfwPollEvents K events w).app.gSceneLights = w.app.gSceneLights ∧
      (glfwPollEvents K events w).output = w.output ∧
      ∃ added : List GLCall, (glfwPollEvents K events w).calls = w.calls ++ added ∧
        added.all (fun c => isFrameCall c && !isSwap c) = true := by
  induction events with
  | nil => intro w; exact ⟨rfl, rfl, rfl, rfl, [], (List.append_nil _).symm, rfl⟩
  | cons e rest ih =>
    intro w
    obtain ⟨d1, d2, d3, d4, a, da, dall⟩ := dispatch_fields K e w
    obtain ⟨i1, i2, i3, i4, b, ib, iall⟩ := ih (dispatch K e w)
    refine ⟨?_, ?_, ?_, ?_, a ++ b, ?_, ?_⟩
    · rw [glfwPollEvents, i1, d1, List.any_cons]
      cases isClose e <;> cases rest.any isClose <;> cases w.app.windowShouldClose <;> rfl
    · rw [glfwPollEvents, i2, d2]
    · rw [glfwPollEvents, i3, d3]
    · rw [glfwPollEvents, i4, d4]
    · rw [glfwPollEvents, ib, da, List.append_assoc]
    · rw [List.all_append, dall, iall]; rfl

theorem frame_fields {C : Type} (K : CameraClass C) (loc : UniformLocations) (f : FrameInput)
    (w : Run C) :
    (frame K loc f w).app.windowShouldClose = (closes f || w.app.windowShouldClose) ∧
    (frame K loc f w).app.shaderProgramId = w.app.shaderProgramId ∧
    (frame K loc f w).app.gSceneLights = w.app.gSceneLights ∧
    (frame K loc f w).output = w.output ∧
    ∃ added : List GLCall, (frame K loc f w).calls = w.calls ++ added ∧
      added.all isFrameCall = true ∧ countCalls isSwap added = 1 := by
  obtain ⟨p1, p2, p3, p4, a, pa, pall⟩ := glfwPollEvents_fields K f.events
    { app := frameState K f w.app
      calls := w.calls ++ (bindTextureUnits (tick f w.app) ++ URender loc K (frameState K f w.app))
      output := w.output }
  obtain ⟨u1, u2, u3⟩ := UProcessInput_fields K f.glfwGetKey (tick f w.app)
  obtain ⟨r1, r2⟩ := URender_swaps_once loc K (frameState K f w.app)
  obtain ⟨a1, _, _, a4⟩ := all_frameCalls_reads a pall
  refine ⟨?_, ?_, ?_, p4,
    bindTextureUnits (tick f w.app) ++ URender loc K (frameState K f w.app) ++ a, ?_, ?_, ?_⟩
  · show (glfwPollEvents K f.events _).app.windowShouldClose = _
    rw [p1]
    show (f.events.any isClose || (UProcessInput K f.glfwGetKey _).windowShouldClose) = _
    rw [u1]
    show (f.events.any isClose || (f.glfwGetKey Key.GLFW_KEY_ESCAPE ||
      w.app.windowShouldClose)) = ((f.glfwGetKey Key.GLFW_KEY_ESCAPE || f.events.any isClose) ||
      w.app.windowShouldClose)
    cases f.events.any isClose <;> cases f.glfwGetKey Key.GLFW_KEY_ESCAPE <;>
      cases w.app.windowShouldClose <;> rfl
  · show (glfwPollEvents K f.events _).app.shaderProgramId = _
    rw [p2]
    exact u2
  · show (glfwPollEvents K f.events _).app.gSceneLights = _
    rw [p3]
    exact u3
  · show (glfwPollEvents K f.events _).calls = _
    rw [pa]
    show w.calls ++ (bindTextureUnits (tick f w.app) ++
      URender loc K (frameState K f w.app)) ++ a = _
    simp only [List.append_assoc]
  · rw [List.all_append, List.all_append, r2, a4]
    rfl
  · unfold countCalls at r1 a1 ⊢
    rw [List.countP_append, List.countP_append, r1, a1]
    rfl

theorem mainLoop_closed {C : Type} (K : CameraClass C) (loc : UniformLocations)
    (frames : List FrameInput) (w : Run C) (h : w.app.windowShouldClose = true) :
    mainLoop K loc frames w = (w, true) := by
  cases frames with
  | nil => rw [mainLoop, h]
  | cons f rest => rw [mainLoop, if_pos h]

theorem mainLoop_fields {C : Type} (K : CameraClass C) (loc : UniformLocations)
    (frames : List FrameInput) :
    ∀ w : Run C, w.app.windowShouldClose = false →
      (mainLoop K loc frames w).2 = frames.any closes ∧
      (mainLoop K loc frames w).1.app.shaderProgramId = w.app.shaderProgramId ∧
      (mainLoop K loc frames w).1.app.gSceneLights = w.app.gSceneLights ∧
      (mainLoop K loc frames w).1.output = w.output ∧
      ∃ added : List GLCall, (mainLoop K loc frames w).1.calls = w.calls ++ added ∧
        added.all isFrameCall = true ∧ countCalls isSwap added = framesRun frames := by
  induction frames with
  | nil =>
    intro w h
    exact ⟨by rw [mainLoop, h]; rfl, rfl, rfl, rfl, [], (List.append_nil _).symm, rfl, rfl⟩
  | cons f rest ih =>
    intro w h
    obtain ⟨f1, f2, f3, f4, a, fa, fall, fswap⟩ := frame_fields K loc f w
    rw [h, Bool.or_false] at f1
    have hstep : mainLoop K loc (f :: rest) w = mainLoop K loc rest (frame K loc f w) := by
      rw [mainLoop, if_neg (by rw [h]; exact Bool.false_ne_true)]
    rw [hstep]
    cases hc : closes f with
    | true =>
      rw [hc] at f1
      rw [mainLoop_closed K loc rest _ f1]
      refine ⟨?_, f2, f3, f4, a, fa, fall, ?_⟩
      · rw [List.any_cons, hc]; rfl
      · rw [fswap, framesRun, if_pos hc]
    | false =>
      rw [hc] at f1
      obtain ⟨i1, i2, i3, i4, b, ib, iall, iswap⟩ := ih (frame K loc f w) f1
      refine ⟨?_, ?_, ?_, ?_, a ++ b, ?_, ?_, ?_⟩
      · rw [i1, List.any_cons, hc]; rfl
      · rw [i2, f2]
      · rw [i3, f3]
      · rw [i4, f4]
      · rw [ib, fa, List.append_assoc]
      · rw [List.all_append, fall, iall]; rfl
      · unfold countCalls at fswap iswap ⊢
        rw [List.countP_append, fswap, iswap, framesRun, if_neg (by rw [hc]; exact Bool.false_ne_true)]

/-! ## Start-up -/

theorem plainSetupCall_reads (c : GLCall) (h : isPlainSetupCall c = true) :
    isSetupCall c = true ∧ createdProgram c = none := by
  revert h
  cases c <;> first
    | exact fun _ => ⟨rfl, rfl⟩
    | exact fun h => Bool.noConfusion h

theorem setupCall_reads (c : GLCall) (h : isSetupCall c = true) :
    isSwap c = false ∧ isDraw c = false ∧ deletedProgram c = none := by
  revert h
  cases c <;> first
    | exact fun _ => ⟨rfl, rfl, rfl⟩
    | exact fun h => Bool.noConfusion h

theorem all_plainSetupCalls (calls : List GLCall) (h : calls.all isPlainSetupCall = true) :
    calls.all isSetupCall = true ∧ calls.filterMap createdProgram = [] := by
  induction calls with
  | nil => exact ⟨rfl, rfl⟩
  | cons c rest ih =>
    rw [List.all_cons, Bool.and_eq_true] at h
    obtain ⟨i1, i2⟩ := ih h.2
    obtain ⟨c1, c2⟩ := plainSetupCall_reads c h.1
    exact ⟨by rw [List.all_cons, c1, i1]; rfl, by rw [List.filterMap_cons_none c2, i2]⟩

theorem all_setupCalls (calls : List GLCall) (h : calls.all isSetupCall = true) :
    countCalls isSwap calls = 0 ∧ countCalls isDraw calls = 0 ∧
      calls.filterMap deletedProgram = [] := by
  induction calls with
  | nil => exact ⟨rfl, rfl, rfl⟩
  | cons c rest ih =>
    rw [List.all_cons, Bool.and_eq_true] at h
    obtain ⟨i1, i2, i3⟩ := ih h.2
    obtain ⟨c1, c2, c3⟩ := setupCall_reads c h.1
    unfold countCalls at i1 i2 ⊢
    refine ⟨?_, ?_, ?_⟩
    · rw [List.countP_cons_of_neg _ _ (by simp [c1]), i1]
    · rw [List.countP_cons_of_neg _ _ (by simp [c2]), i2]
    · rw [List.filterMap_cons_none c3, i3]

theorem UInitialize_facts (a : InitAnswers) :
    (UInitialize a).ok = (a.windowCreated && a.glewOk) ∧
      (UInitialize a).calls.all isPlainSetupCall = true := by
  cases hw : a.windowCreated <;> cases hg : a.glewOk <;>
    simp only [UInitialize, hw, hg] <;> exact ⟨rfl, rfl⟩

theorem UCreateTexture_plain (stbi_load : String → Option Image) (newName : GLuint)
    (filename : String) (textureId : GLuint) :
    (UCreateTexture stbi_load newName filename textureId).calls.all isPlainSetupCall = true := by
  unfold UCreateTexture
  cases h : stbi_load filename with
  | none => rfl
  | some image =>
    by_cases h3 : image.channels = 3
    · simp only [h3, if_true]; rfl
    · by_cases h4 : image.channels = 4
      · simp only [h3, h4, if_true, if_false]; rfl
      · simp only [h3, h4, if_false]; rfl

theorem loadTexture_plain {C : Type} (env : Env) (n : Nat) (f : String)
    (get : AppState C → GLuint) (set : AppState C → GLuint → AppState C) (w : Run C) :
    (loadTexture env n f get set w).calls.all isPlainSetupCall =
      w.calls.all isPlainSetupCall := by
  simp only [loadTexture, List.all_append, UCreateTexture_plain, Bool.and_true]

theorem sectionCalls_plain (vao vbo : GLuint) (m : MeshSection) :
    (sectionCalls vao vbo m).all isPlainSetupCall = true := by
  have h : ∀ attribs : List VertexAttrib,
      (attribs.flatMap (fun a =>
        [ GLCall.glVertexAttribPointer a, GLCall.glEnableVertexAttribArray a.index ])).all
        isPlainSetupCall = true := by
    intro attribs
    induction attribs with
    | nil => rfl
    | cons a rest ih =>
      rw [List.flatMap_cons, List.all_append, ih]
      rfl
  rw [sectionCalls, List.all_append, h]
  rfl

theorem UCreateMesh_plain {C : Type} (env : Env) (w : Run C) :
    (UCreateMesh env w).calls.all isPlainSetupCall = w.calls.all isPlainSetupCall ∧
    (UCreateMesh env w).app.windowShouldClose = w.app.windowShouldClose ∧
    (UCreateMesh env w).app.gSceneLights = w.app.gSceneLights ∧
    (UCreateMesh env w).app.shaderProgramId = w.app.shaderProgramId := by
  refine ⟨?_, rfl, rfl, rfl⟩
  simp only [UCreateMesh, loadTexture_plain, meshSections_zip, List.all_append,
    List.flatMap_cons, List.flatMap_nil, sectionCalls_plain, List.all_nil, Bool.and_true]

theorem UCreateShaderProgram_facts (a : ShaderAnswers) (vtx frag : ShaderSource) :
    (UCreateShaderProgram a vtx frag).ok = a.allOk ∧
    (UCreateShaderProgram a vtx frag).programId = a.program ∧
    (UCreateShaderProgram a vtx frag).calls.all isSetupCall = true ∧
    (UCreateShaderProgram a vtx frag).calls.filterMap createdProgram = [a.program] := by
  cases hv : a.vertexCompiled <;> cases hf : a.fragmentCompiled <;> cases hl : a.linked <;>
    simp only [UCreateShaderProgram, ShaderAnswers.allOk, hv, hf, hl] <;>
    exact ⟨rfl, rfl, rfl, rfl⟩

theorem createLampPrograms_facts (shader : Nat → ShaderAnswers) (lights : List GLLight) :
    ∀ i : Nat,
      (createLampPrograms shader i lights).ok =
        (List.range' (i + 1) lights.length).all (fun n => (shader n).allOk) ∧
      (createLampPrograms shader i lights).calls.all isSetupCall = true ∧
      ((createLampPrograms shader i lights).ok = true →
        (createLampPrograms shader i lights).calls.filterMap createdProgram =
          (List.range' (i + 1) lights.length).map (fun n => (shader n).program) ∧
        (createLampPrograms shader i lights).lights.map GLLight.shaderProgram =
          (List.range' (i + 1) lights.length).map (fun n => (shader n).program)) := by
  induction lights with
  | nil => intro i; exact ⟨rfl, rfl, fun _ => ⟨rfl, rfl⟩⟩
  | cons l rest ih =>
    intro i
    obtain ⟨u1, u2, u3, u4⟩ := UCreateShaderProgram_facts (shader (i + 1))
      ShaderSource.lampVertexShaderSource ShaderSource.lampFragmentShaderSource
    obtain ⟨i1, i2, i3⟩ := ih (i + 1)
    cases hok : (shader (i + 1)).allOk with
    | false =>
      rw [hok] at u1
      have hdef : createLampPrograms shader i (l :: rest) =
          { lights := { l with shaderProgram := (UCreateShaderProgram (shader (i + 1))
              ShaderSource.lampVertexShaderSource
              ShaderSource.lampFragmentShaderSource).programId } :: rest
            calls := (UCreateShaderProgram (shader (i + 1)) ShaderSource.lampVertexShaderSource
              ShaderSource.lampFragmentShaderSource).calls
            output := (UCreateShaderProgram (shader (i + 1)) ShaderSource.lampVertexShaderSource
              ShaderSource.lampFragmentShaderSource).output
            ok := false } := by
        rw [createLampPrograms]
        simp only [u1, Bool.not_false, if_true]
      rw [hdef]
      refine ⟨?_, u3, fun h => Bool.noConfusion h⟩
      show false = (List.range' (i + 1) (rest.length + 1)).all (fun n => (shader n).allOk)
      rw [List.range'_succ, List.all_cons, hok]
      rfl
    | true =>
      rw [hok] at u1
      have hdef : createLampPrograms shader i (l :: rest) =
          { lights := { l with shaderProgram := (UCreateShaderProgram (shader (i + 1))
              ShaderSource.lampVertexShaderSource
              ShaderSource.lampFragmentShaderSource).programId } ::
                (createLampPrograms shader (i + 1) rest).lights
            calls := (UCreateShaderProgram (shader (i + 1)) ShaderSource.lampVertexShaderSource
              ShaderSource.lampFragmentShaderSource).calls ++
                (createLampPrograms shader (i + 1) rest).calls
            output := (UCreateShaderProgram (shader (i + 1)) ShaderSource.lampVertexShaderSource
              ShaderSource.lampFragmentShaderSource).output ++
                (createLampPrograms shader (i + 1) rest).output
            ok := (createLampPrograms shader (i + 1) rest).ok } := by
        rw [createLampPrograms]
        simp only [u1, Bool.not_true, Bool.false_eq_true, if_false]
      rw [hdef]
      refine ⟨?_, ?_, ?_⟩
      · show (createLampPrograms shader (i + 1) rest).ok =
          (List.range' (i + 1) (rest.length + 1)).all (fun n => (shader n).allOk)
        rw [List.range'_succ, List.all_cons, hok, i1]
        rfl
      · show ((UCreateShaderProgram (shader (i + 1)) ShaderSource.lampVertexShaderSource
          ShaderSource.lampFragmentShaderSource).calls ++
            (createLampPrograms shader (i + 1) rest).calls).all isSetupCall = true
        rw [List.all_append, u3, i2]
        rfl
      · intro h
        obtain ⟨j1, j2⟩ := i3 h
        refine ⟨?_, ?_⟩
        · show ((UCreateShaderProgram (shader (i + 1)) ShaderSource.lampVertexShaderSource
            ShaderSource.lampFragmentShaderSource).calls ++
              (createLampPrograms shader (i + 1) rest).calls).filterMap createdProgram =
            (List.range' (i + 1) (rest.length + 1)).map (fun n => (shader n).program)
          rw [List.filterMap_append, u4, j1, List.range'_succ, List.map_cons]
          rfl
        · show (UCreateShaderProgram (shader (i + 1)) ShaderSource.lampVertexShaderSource
            ShaderSource.lampFragmentShaderSource).programId ::
              (createLampPrograms shader (i + 1) rest).lights.map GLLight.shaderProgram =
            (List.range' (i + 1) (rest.length + 1)).map (fun n => (shader n).program)
          rw [u2, j2, List.range'_succ, List.map_cons]

theorem startupOk_eq (env : Env) :
    startupOk env =
      (env.init.windowCreated && env.init.glewOk && ((env.shader 0).allOk &&
        (List.range' 1 5).all (fun n => (env.shader n).allOk))) := rfl

/-- What holds when `main` reaches the render loop or returns before it. -/
theorem startup_facts {C : Type} (cam : C) (env : Env) :
    (startup cam env).ok = startupOk env ∧
    (startup cam env).run.app.windowShouldClose = false ∧
    (startup cam env).run.calls.all isSetupCall = true ∧
    (startupOk env = true →
      (startup cam env).run.app.shaderProgramId = (env.shader 0).program ∧
      (startup cam env).run.app.gSceneLights.map GLLight.shaderProgram =
        (List.range' 1 5).map (fun n => (env.shader n).program) ∧
      (startup cam env).run.calls.filterMap createdProgram =
        (List.range 6).map (fun n => (env.shader n).program)) := by
  obtain ⟨hi, hicalls⟩ := UInitialize_facts env.init
  obtain ⟨hm1, hm2, hm3, hm4⟩ := UCreateMesh_plain env
    ({ app := initialState cam, calls := (UInitialize env.init).calls,
       output := (UInitialize env.init).output } : Run C)
  obtain ⟨hmsetup, hmcreated⟩ := all_plainSetupCalls _ (hm1.trans hicalls)
  obtain ⟨p1, p2, p3, p4⟩ := UCreateShaderProgram_facts (env.shader 0)
    ShaderSource.vertexShaderSource ShaderSource.fragmentShaderSource
  have hlights := hm3
  rw [show (initialState cam).gSceneLights = gSceneLights from rfl] at hlights
  obtain ⟨l1, l2, l3⟩ := createLampPrograms_facts env.shader gSceneLights 0
  rw [startupOk_eq, ← hi, ← p1]
  rw [show (List.range' 1 5).all (fun n => (env.shader n).allOk) =
    (createLampPrograms env.shader 0 gSceneLights).ok from l1.symm]
  unfold startup
  cases hiok : (UInitialize env.init).ok with
  | false =>
    simp only [hiok, Bool.not_false, if_true, Bool.false_and]
    exact ⟨trivial, rfl, (all_plainSetupCalls _ hicalls).1, fun h => Bool.noConfusion h⟩
  | true =>
    cases hpok : (UCreateShaderProgram (env.shader 0) ShaderSource.vertexShaderSource
        ShaderSource.fragmentShaderSource).ok with
    | false =>
      simp only [hiok, Bool.not_true, Bool.not_false, Bool.false_eq_true, if_false, if_true,
        hpok, Bool.true_and, Bool.false_and]
      refine ⟨trivial, hm2, ?_, fun h => False.elim h⟩
      rw [List.all_append, hmsetup, p3]
      rfl
    | true =>
      simp only [hiok, Bool.not_true, Bool.false_eq_true, if_false, hpok, Bool.true_and,
        hlights]
      cases hlok : (createLampPrograms env.shader 0 gSceneLights).ok with
      | false =>
        simp only [hlok, Bool.not_false, if_true]
        refine ⟨trivial, hm2, ?_, fun h => Bool.noConfusion h⟩
        rw [List.all_append, List.all_append, hmsetup, p3, l2]
        rfl
      | true =>
        simp only [hlok, Bool.not_true, Bool.false_eq_true, if_false]
        obtain ⟨j1, j2⟩ := l3 hlok
        refine ⟨trivial, hm2, ?_, fun _ => ⟨p2, j2, ?_⟩⟩
        · rw [List.all_append, List.all_append, List.all_append, hmsetup, p3, l2]
          rfl
        · rw [List.filterMap_append, List.filterMap_append, List.filterMap_append, hmcreated,
            p4, j1]
          rfl

/-! ## The whole run -/

theorem teardown_reads {C : Type} (env : Env) (s : AppState C) :
    countCalls isSwap (teardown env s) = 0 ∧ countCalls isDraw (teardown env s) = 0 ∧
    (teardown env s).filterMap createdProgram = [] ∧
    (teardown env s).filterMap deletedProgram =
      s.shaderProgramId :: s.gSceneLights.map GLLight.shaderProgram := by
  have h : ∀ lights : List GLLight,
      countCalls isSwap
        (lights.map (fun light => GLCall.glDeleteProgram light.shaderProgram)) = 0 ∧
      countCalls isDraw
        (lights.map (fun light => GLCall.glDeleteProgram light.shaderProgram)) = 0 ∧
      (lights.map (fun light => GLCall.glDeleteProgram light.shaderProgram)).filterMap
        createdProgram = [] ∧
      (lights.map (fun light => GLCall.glDeleteProgram light.shaderProgram)).filterMap
        deletedProgram = lights.map GLLight.shaderProgram := by
    intro lights
    induction lights with
    | nil => exact ⟨rfl, rfl, rfl, rfl⟩
    | cons l ls ih =>
      obtain ⟨i1, i2, i3, i4⟩ := ih
      unfold countCalls at i1 i2 ⊢
      refine ⟨?_, ?_, ?_, ?_⟩
      · rw [List.map_cons, List.countP_cons_of_neg _ _ (by simp [isSwap]), i1]
      · rw [List.map_cons, List.countP_cons_of_neg _ _ (by simp [isDraw]), i2]
      · rw [List.map_cons, List.filterMap_cons_none rfl, i3]
      · rw [List.map_cons, List.map_cons]
        exact (List.filterMap_cons_some (f := deletedProgram)
          (a := GLCall.glDeleteProgram l.shaderProgram) (b := l.shaderProgram) rfl).trans
          (congrArg (List.cons l.shaderProgram) i4)
  obtain ⟨h1, h2, h3, h4⟩ := h s.gSceneLights
  unfold countCalls at h1 h2 ⊢
  rw [teardown_eq, List.countP_append, List.countP_append, List.filterMap_append,
    List.filterMap_append, h1, h2, h3, h4]
  exact ⟨rfl, rfl, rfl, rfl⟩

theorem main_of_failed_startup {C : Type} (K : CameraClass C) (cam : C) (env : Env)
    (h : startupOk env = false) :
    main K cam env = { exit := some ExitStatus.EXIT_FAILURE, run := (startup cam env).run } := by
  have hs := (startup_facts cam env).1
  rw [h] at hs
  unfold main
  simp only [hs, Bool.not_false, if_true]

theorem main_of_open_window {C : Type} (K : CameraClass C) (cam : C) (env : Env)
    (h : startupOk env = true) (hc : env.frames.any closes = false) :
    main K cam env =
      { exit := none
        run := (mainLoop K env.uniformLocation env.frames (startup cam env).run).1 } := by
  obtain ⟨hs, hw, _, _⟩ := startup_facts cam env
  rw [h] at hs
  have hl := (mainLoop_fields K env.uniformLocation env.frames (startup cam env).run hw).1
  rw [hc] at hl
  unfold main
  simp only [hs, hl, Bool.not_true, Bool.not_false, Bool.false_eq_true, if_false, if_true]

theorem main_of_closed_window {C : Type} (K : CameraClass C) (cam : C) (env : Env)
    (h : startupOk env = true) (hc : env.frames.any closes = true) :
    main K cam env =
      { exit := some ExitStatus.EXIT_SUCCESS
        run :=
          { (mainLoop K env.uniformLocation env.frames (startup cam env).run).1 with
            calls :=
              (mainLoop K env.uniformLocation env.frames (startup cam env).run).1.calls ++
                teardown env
                  (mainLoop K env.uniformLocation env.frames (startup cam env).run).1.app } } := by
  obtain ⟨hs, hw, _, _⟩ := startup_facts cam env
  rw [h] at hs
  have hl := (mainLoop_fields K env.uniformLocation env.frames (startup cam env).run hw).1
  rw [hc] at hl
  unfold main
  simp only [hs, hl, Bool.not_true, Bool.false_eq_true, if_false]

/-- The exit status of `main` and the number of frames it presents, for every run. -/
theorem main_exit_and_frames {C : Type} (K : CameraClass C) (cam : C) (env : Env) :
    (main K cam env).exit =
      (if startupOk env = true then
        (if env.frames.any closes = true then some ExitStatus.EXIT_SUCCESS else none)
      else some ExitStatus.EXIT_FAILURE) ∧
    countCalls isSwap (main K cam env).run.calls =
      (if startupOk env = true then framesRun env.frames else 0) ∧
    (if startupOk env = true then True else countCalls isDraw (main K cam env).run.calls = 0) := by
  obtain ⟨hs, hw, hsetup, _⟩ := startup_facts cam env
  obtain ⟨q1, q2, _⟩ := all_setupCalls _ hsetup
  cases h : startupOk env with
  | false =>
    rw [main_of_failed_startup K cam env h]
    simp only [Bool.false_eq_true, if_false]
    exact ⟨trivial, q1, q2⟩
  | true =>
    obtain ⟨l1, _, _, _, added, la, lall, lswap⟩ :=
      mainLoop_fields K env.uniformLocation env.frames (startup cam env).run hw
    unfold countCalls at q1 lswap
    cases hc : env.frames.any closes with
    | false =>
      rw [main_of_open_window K cam env h hc]
      refine ⟨rfl, ?_, trivial⟩
      show List.countP isSwap _ = framesRun env.frames
      rw [la, List.countP_append, q1, lswap, Nat.zero_add]
    | true =>
      rw [main_of_closed_window K cam env h hc]
      have t1 := (teardown_reads env
        (mainLoop K env.uniformLocation env.frames (startup cam env).run).1.app).1
      unfold countCalls at t1
      refine ⟨rfl, ?_, trivial⟩
      show List.countP isSwap (_ ++ _) = framesRun env.frames
      rw [la, List.countP_append, List.countP_append, q1, lswap, t1, Nat.zero_add, Nat.add_zero]

/-! ## Texture load failures -/

/-- C13, as the program behaves: whatever the decoder does, `UCreateMesh` calls `stbi_load`
for the ten texture files in order, and what it writes is, file by file: nothing when the
load succeeds; the line `Failed to load texture <file>` when decoding fails; and two lines
when the image has an unsupported channel count, `Not implemented to handle image with <n>
channels` written by `UCreateTexture` followed by `Failed to load texture <file>`.  The
exit status of `main` and the number of frames it presents do not depend on the decoder. -/
theorem texture_failures_reported {C : Type} (K : CameraClass C) (cam : C) (env : Env)
    (w : Run C) (decoder : String → Option Image) :
    loadedFiles (UCreateMesh env w).calls = loadedFiles w.calls ++ textureFiles ∧
    (UCreateMesh env w).output =
      w.output ++ textureFiles.flatMap (textureReports env.stbi_load) ∧
    (∀ (filename : String) (newName textureId : GLuint),
      textureReports env.stbi_load filename =
        (UCreateTexture env.stbi_load newName filename textureId).output ++
          (if (UCreateTexture env.stbi_load newName filename textureId).ok = true then []
          else [ "Failed to load texture " ++ filename ])) ∧
    (∀ filename : String,
      textureReports env.stbi_load filename =
        match env.stbi_load filename with
        | none => [ "Failed to load texture " ++ filename ]
        | some image =>
          if image.channels = 3 ∨ image.channels = 4 then []
          else
            [ "Not implemented to handle image with " ++ toString image.channels ++ " channels",
              "Failed to load texture " ++ filename ]) ∧
    (main K cam { env with stbi_load := decoder }).exit = (main K cam env).exit ∧
    countCalls isSwap (main K cam { env with stbi_load := decoder }).run.calls =
      countCalls isSwap (main K cam env).run.calls := by
  obtain ⟨_, _, h3, h4⟩ := UCreateMesh_reads env w
  obtain ⟨m1, m2, _⟩ := main_exit_and_frames K cam env
  obtain ⟨n1, n2, _⟩ := main_exit_and_frames K cam { env with stbi_load := decoder }
  refine ⟨h3, h4, ?_, fun _ => rfl, ?_, ?_⟩
  · intro filename newName textureId
    unfold textureReports UCreateTexture
    cases h : env.stbi_load filename with
    | none => simp
    | some image =>
      by_cases c3 : image.channels = 3
      · simp [c3]
      · by_cases c4 : image.channels = 4
        · simp [c4]
        · simp [c3, c4]
  · rw [m1, n1]
    rfl
  · rw [m2, n2]
    rfl

/-- C13, as stated, fails: when `plane1.jpg` decodes as an image with 1 channel and the
other nine files load, one asset fails but two lines are written for it. -/
theorem one_channel_texture_reported_twice :
    textureFiles.filter (fun f => !(UCreateTexture oneChannelEnv.stbi_load 0 f 0).ok) =
      [ "plane1.jpg" ] ∧
    (UCreateMesh oneChannelEnv
        ({ app := initialState freshCamera, calls := [], output := [] } :
          Run (List CameraCall))).output =
      [ "Not implemented to handle image with 1 channels",
        "Failed to load texture plane1.jpg" ] := by
  refine ⟨by decide, ?_⟩
  rw [(UCreateMesh_reads oneChannelEnv _).2.2.2]
  decide

/-! ## Exit status -/

/-- C15: `main` reaches the render loop exactly when `UInitialize` succeeds and the six
shader program creations (the lit program, then one per light) succeed.  When it does
not, the exit status is `EXIT_FAILURE` and no frame is presented and nothing is drawn.
When it does, the render loop runs up to and including the first iteration that raises
the close flag, each iteration presenting one frame; the exit status is `EXIT_SUCCESS`
once the flag is raised, and there is none as long as the window stays open. -/
theorem main_exit_status {C : Type} (K : CameraClass C) (cam : C) (env : Env) :
    (startupOk env = true ↔
      (UInitialize env.init).ok = true ∧
      (UCreateShaderProgram (env.shader 0) ShaderSource.vertexShaderSource
        ShaderSource.fragmentShaderSource).ok = true ∧
      ∀ i, i < 5 →
        (UCreateShaderProgram (env.shader (i + 1)) ShaderSource.lampVertexShaderSource
          ShaderSource.lampFragmentShaderSource).ok = true) ∧
    ((main K cam env).exit = some ExitStatus.EXIT_FAILURE ↔ startupOk env = false) ∧
    (main K cam env).exit =
      (if startupOk env = true then
        (if env.frames.any closes = true then some ExitStatus.EXIT_SUCCESS else none)
      else some ExitStatus.EXIT_FAILURE) ∧
    countCalls isSwap (main K cam env).run.calls =
      (if startupOk env = true then framesRun env.frames else 0) ∧
    (if startupOk env = true then True else countCalls isDraw (main K cam env).run.calls = 0) := by
  obtain ⟨m1, m2, m3⟩ := main_exit_and_frames K cam env
  refine ⟨?_, ?_, m1, m2, m3⟩
  · rw [startupOk_eq, (UInitialize_facts env.init).1]
    simp only [(UCreateShaderProgram_facts _ _ _).1, Bool.and_eq_true, List.all_eq_true]
    constructor
    · rintro ⟨hi, h0, hl⟩
      refine ⟨hi, h0, fun i hi5 => hl (i + 1) ?_⟩
      rw [List.mem_range']
      exact ⟨i, hi5, by omega⟩
    · rintro ⟨hi, h0, hl⟩
      refine ⟨hi, h0, fun n hn => ?_⟩
      rw [List.mem_range'] at hn
      obtain ⟨i, hi5, rfl⟩ := hn
      have := hl i hi5
      rwa [show 1 + 1 * i = i + 1 by omega]
  · rw [m1]
    cases startupOk env
    · simp
    · cases env.frames.any closes <;> simp

/-! ## Shader programs over the run -/

/-- C16: in a run in which start-up succeeds and the window is closed, the lit program
variable holds the name returned in creation 0 and light `i` holds the name returned in
its own creation `i + 1`; the run creates exactly these six programs, and the calls after
the render loop pass exactly these six names to `glDeleteProgram`, each once, the lit
program first and then the lamps in order. -/
theorem lamp_programs_created_and_released {C : Type} (K : CameraClass C) (cam : C) (env : Env)
    (hs : startupOk env = true) (hc : env.frames.any closes = true) :
    (main K cam env).exit = some ExitStatus.EXIT_SUCCESS ∧
    (main K cam env).run.app.shaderProgramId = (env.shader 0).program ∧
    (main K cam env).run.app.gSceneLights.map GLLight.shaderProgram =
      [ (env.shader 1).program, (env.shader 2).program, (env.shader 3).program,
        (env.shader 4).program, (env.shader 5).program ] ∧
    (main K cam env).run.calls.filterMap createdProgram =
      [ (env.shader 0).program, (env.shader 1).program, (env.shader 2).program,
        (env.shader 3).program, (env.shader 4).program, (env.shader 5).program ] ∧
    (main K cam env).run.calls.filterMap deletedProgram =
      [ (env.shader 0).program, (env.shader 1).program, (env.shader 2).program,
        (env.shader 3).program, (env.shader 4).program, (env.shader 5).program ] := by
  obtain ⟨_, hw, hsetup, hok⟩ := startup_facts cam env
  obtain ⟨s1, s2, s3⟩ := hok hs
  obtain ⟨_, _, sdel⟩ := all_setupCalls _ hsetup
  obtain ⟨_, l2, l3, _, added, la, lall, _⟩ :=
    mainLoop_fields K env.uniformLocation env.frames (startup cam env).run hw
  obtain ⟨a1, a2⟩ := all_frameCalls_programs added lall
  obtain ⟨_, _, t3, t4⟩ := teardown_reads env
    (mainLoop K env.uniformLocation env.frames (startup cam env).run).1.app
  rw [main_of_closed_window K cam env hs hc]
  refine ⟨rfl, ?_, ?_, ?_, ?_⟩
  · show (mainLoop K env.uniformLocation env.frames (startup cam env).run).1.app.shaderProgramId
      = _
    rw [l2, s1]
  · show (mainLoop K env.uniformLocation env.frames
      (startup cam env).run).1.app.gSceneLights.map GLLight.shaderProgram = _
    rw [l3, s2]
    rfl
  · show ((mainLoop K env.uniformLocation env.frames (startup cam env).run).1.calls ++
      teardown env _).filterMap createdProgram = _
    rw [List.filterMap_append, t3, la, List.filterMap_append, a1, s3]
    rfl
  · show ((mainLoop K env.uniformLocation env.frames (startup cam env).run).1.calls ++
      teardown env _).filterMap deletedProgram = _
    rw [List.filterMap_append, t4, la, List.filterMap_append, a2, sdel, l2, l3, s1, s2]
    rfl

/-- Witness of C16: the run of `sampleEnv`, whose driver names the six programs 1, 4, 7,
10, 13 and 16. -/
theorem lamp_programs_created_and_released_witness :
    startupOk sampleEnv = true ∧ sampleEnv.frames.any closes = true ∧
    (main recordingCamera freshCamera sampleEnv).exit = some ExitStatus.EXIT_SUCCESS ∧
    (main recordingCamera freshCamera sampleEnv).run.app.shaderProgramId = 1 ∧
    (main recordingCamera freshCamera sampleEnv).run.app.gSceneLights.map
      GLLight.shaderProgram = [4, 7, 10, 13, 16] ∧
    (main recordingCamera freshCamera sampleEnv).run.calls.filterMap createdProgram =
      [1, 4, 7, 10, 13, 16] ∧
    (main recordingCamera freshCamera sampleEnv).run.calls.filterMap deletedProgram =
      [1, 4, 7, 10, 13, 16] :=
  ⟨rfl, rfl, lamp_programs_created_and_released recordingCamera freshCamera sampleEnv rfl rfl⟩

/-! ## Consistency of the object draws -/

theorem objectDraws_lightLoop (loc : UniformLocations) (q : GLuint) (lights : List GLLight) :
    ∀ (i : Nat) (v : GLuint) (u : Int) (rest : List GLCall),
      objectDraws v u (URender_lightLoop loc q i lights ++ rest) = objectDraws v u rest := by
  induction lights with
  | nil => intro i v u rest; rfl
  | cons l ls ih =>
    intro i v u rest
    simp only [URender_lightLoop, URender_lightUniforms, List.append_assoc, List.cons_append,
      List.nil_append]
    simp only [objectDraws]
    exact ih (i + 1) v u rest

theorem objectDraws_lampLoop {C : Type} (loc : UniformLocations) (s : AppState C)
    (view projection : Mat4) (lights : List GLLight) :
    ∀ (v : GLuint) (u : Int),
      objectDraws v u (URender_lampLoop loc s view projection lights ++
        [GLCall.glBindVertexArray 0, GLCall.glUseProgram 0, GLCall.glfwSwapBuffers]) = [] := by
  induction lights with
  | nil => intro v u; rfl
  | cons l ls ih =>
    intro v u
    simp only [URender_lampLoop, URender_lamp, uploadMatrices, List.append_assoc,
      List.cons_append, List.nil_append]
    simp only [objectDraws]
    exact ih _ _

theorem objectDraws_drawObject {C : Type} (loc : UniformLocations) (s : AppState C)
    (model view projection : Mat4) (unit : Int) (vaoIx countIx : Fin 11) (v : GLuint) (u : Int)
    (rest : List GLCall) :
    objectDraws v u (drawObject loc s model view projection unit vaoIx countIx ++ rest) =
      ⟨s.gMesh.vao vaoIx, unit, GLenum.GL_TRIANGLES, s.gMesh.nVertices countIx⟩ ::
        objectDraws (s.gMesh.vao vaoIx) unit rest := by
  simp only [drawObject, uploadMatrices, List.append_assoc, List.cons_append, List.nil_append]
  simp only [objectDraws]

/-- C19: the draw calls of one frame are ten, all with mode `GL_TRIANGLES` and the lit
program bound; the `j`-th is issued with vertex array `vao[k]` bound, `nVertices[k]`
vertices and the sampler last set to `k`, for `k` = 2, 3, 7, 8, 4, 9, 5, 6, 10, 1; these
indices are the numbers 1 to 10, each once, and 0 (the light marker) is not among them. -/
theorem URender_object_draws_consistent {C : Type} (loc : UniformLocations)
    (K : CameraClass C) (s : AppState C) (v p : GLuint) (u : Int) :
    objectDraws v u (URender loc K s) =
      ([2, 3, 7, 8, 4, 9, 5, 6, 10, 1] : List (Fin 11)).map (fun k =>
        (⟨s.gMesh.vao k, (k.val : Int), GLenum.GL_TRIANGLES, s.gMesh.nVertices k⟩ :
          ObjectDraw)) ∧
    (drawRecords p v (URender loc K s)).map DrawRecord.program =
      List.replicate 10 s.shaderProgramId ∧
    List.Perm ([2, 3, 7, 8, 4, 9, 5, 6, 10, 1] : List (Fin 11))
      [1, 2, 3, 4, 5, 6, 7, 8, 9, 10] ∧
    ¬ (0 : Fin 11) ∈ ([2, 3, 7, 8, 4, 9, 5, 6, 10, 1] : List (Fin 11)) := by
  refine ⟨?_, ?_, by decide, by decide⟩
  · simp only [URender, URender_setup, URender_objects, uploadMatrices, List.append_assoc,
      List.cons_append, List.nil_append]
    simp only [objectDraws, objectDraws_lightLoop]
    simp only [objectDraws_drawObject, List.append_eq, List.nil_append, objectDraws_lampLoop,
      List.map_cons, List.map_nil]
    rfl
  · rw [URender_drawRecords]
    rfl

/-! ## The order of the calls of a frame -/

theorem lightLoop_no_draw_no_program (loc : UniformLocations) (q : GLuint)
    (lights : List GLLight) :
    ∀ i : Nat, (URender_lightLoop loc q i lights).all
      (fun c => !isDraw c && !isUseProgram c && !isSwap c) = true := by
  induction lights with
  | nil => intro i; rfl
  | cons l ls ih =>
    intro i
    rw [URender_lightLoop, List.all_append, ih (i + 1)]
    rfl

theorem lampLoop_no_draw {C : Type} (loc : UniformLocations) (s : AppState C)
    (view projection : Mat4) (lights : List GLLight) :
    (URender_lampLoop loc s view projection lights).all (fun c => !isDraw c && !isSwap c) =
      true := by
  induction lights with
  | nil => rfl
  | cons l ls ih =>
    rw [URender_lampLoop, List.all_append, ih]
    rfl

/-- C20: for every state, the calls of one frame are, in this order: `glEnable`,
`glClearColor` and the clearing of the colour and depth buffers; the binding of `vao[0]`
and of the lit program; a stretch of uniform uploads without any draw call, program change
or buffer swap; the object stretch, without program change or buffer swap, which holds all
ten draw calls; the lamp stretch, without any draw call or buffer swap, which starts with
the binding of the first light's program when there is a light; and finally the unbinding
of the vertex array, the unbinding of the program and the single `glfwSwapBuffers`. -/
theorem URender_frame_sequence {C : Type} (loc : UniformLocations) (K : CameraClass C)
    (s : AppState C) :
    ∃ uniforms objects lamps : List GLCall,
      URender loc K s =
        [ GLCall.glEnable GLenum.GL_DEPTH_TEST,
          GLCall.glClearColor 0 0 0 1,
          GLCall.glClear true true,
          GLCall.glBindVertexArray (s.gMesh.vao 0),
          GLCall.glUseProgram s.shaderProgramId ] ++ uniforms ++ objects ++ lamps ++
        [ GLCall.glBindVertexArray 0, GLCall.glUseProgram 0, GLCall.glfwSwapBuffers ] ∧
      uniforms.all (fun c => !isDraw c && !isUseProgram c && !isSwap c) = true ∧
      objects.all (fun c => !isUseProgram c && !isSwap c) = true ∧
      countCalls isDraw objects = 10 ∧
      lamps.all (fun c => !isDraw c && !isSwap c) = true ∧
      lamps.head? = s.gSceneLights.head?.map (fun l => GLCall.glUseProgram l.shaderProgram) ∧
      countCalls isSwap (URender loc K s) = 1 := by
  refine ⟨uploadMatrices loc s.shaderProgramId Mat4.identity (K.GetViewMatrix s.gCamera)
      (URender_projection K s) ++
      URender_lightLoop loc s.shaderProgramId 0 s.gSceneLights ++
      [ GLCall.glGetUniformLocation s.shaderProgramId "viewPosition",
        GLCall.glUniform3f (loc s.shaderProgramId "viewPosition")
          (K.Position s.gCamera).x (K.Position s.gCamera).y (K.Position s.gCamera).z,
        GLCall.glGetUniformLocation s.shaderProgramId "uvScale",
        GLCall.glUniform2fv (loc s.shaderProgramId "uvScale") s.gUVScale ],
    URender_objects loc K s,
    URender_lampLoop loc s (K.GetViewMatrix s.gCamera) (URender_projection K s) s.gSceneLights,
    ?_, ?_, rfl, rfl, lampLoop_no_draw loc s _ _ _, ?_, (URender_swaps_once loc K s).1⟩
  · simp only [URender, URender_setup, List.append_assoc]
  · rw [List.all_append, List.all_append, lightLoop_no_draw_no_program]
    rfl
  · cases s.gSceneLights with
    | nil => rfl
    | cons l rest => rfl


/-! ## The copy loops of `UCreateMesh` -/

theorem copyCoords_eq (table : List Rat) :
    ∀ (vertices : List Rat) (i : Nat), i ≤ vertices.length →
      copyCoords vertices i table =
        if i + table.length ≤ vertices.length then
          Except.ok (vertices.take i ++ table ++ vertices.drop (i + table.length))
        else Except.error vertices.length := by
  induction table with
  | nil =>
    intro vertices i hi
    simp [copyCoords, hi]
  | cons c rest ih =>
    intro vertices i hi
    rw [copyCoords]
    by_cases hlt : i < vertices.length
    · rw [if_pos hlt, ih (vertices.set i c) (i + 1) (by rw [List.length_set]; omega)]
      rw [List.length_set, List.length_cons]
      by_cases hfit : i + 1 + rest.length ≤ vertices.length
      · rw [if_pos hfit, if_pos (by omega)]
        congr 1
        rw [List.set_eq_take_append_cons_drop, if_pos hlt]
        have htake : (List.take i vertices ++ c :: List.drop (i + 1) vertices).take (i + 1) =
            List.take i vertices ++ [c] := by
          rw [List.take_append_eq_append_take, List.length_take, Nat.min_eq_left hi]
          rw [List.take_of_length_le (by rw [List.length_take]; omega)]
          rw [show i + 1 - i = 1 by omega]
          rfl
        have hdrop : (List.take i vertices ++ c :: List.drop (i + 1) vertices).drop
            (i + 1 + rest.length) = List.drop (i + (rest.length + 1)) vertices := by
          rw [List.drop_append_eq_append_drop, List.length_take, Nat.min_eq_left hi]
          rw [List.drop_of_length_le (by rw [List.length_take]; omega)]
          rw [show i + 1 + rest.length - i = rest.length + 1 by omega]
          rw [List.nil_append, List.drop_succ_cons, List.drop_drop]
          congr 1
          omega
        rw [htake, hdrop]
        simp only [List.append_assoc, List.singleton_append]
      · rw [if_neg hfit, if_neg (by omega)]
    · rw [if_neg hlt, if_neg (by rw [List.length_cons]; omega)]
      congr 1
      omega

/-- C22: for an array declared with `N` floats and a table of length `L`, the copy loop
stays inside the array exactly when `L ≤ N` (otherwise its first write outside is at index
`N`); when `L ≤ N` the array uploaded is the table followed by `N - L` zeros; this is the
array each mesh section passes to `glBufferData`; and the vertex count and the byte size a
section stores do not depend on the table, so the vertex counts of all eleven meshes are
the same for any two sets of tables. -/
theorem copy_loop_bounds (N : Nat) (table other : List Rat) (c d : Coordinates) :
    copyCoords (List.replicate N 0) 0 table =
      (if table.length ≤ N then Except.ok (table ++ List.replicate (N - table.length) 0)
      else Except.error N) ∧
    ((∃ uploaded, copyCoords (List.replicate N 0) 0 table = Except.ok uploaded) ↔
      table.length ≤ N) ∧
    (lightSection N table).bufferData = copyCoords (List.replicate N 0) 0 table ∧
    (objectSection N table).bufferData = copyCoords (List.replicate N 0) 0 table ∧
    (lightSection N table).nVertices = (lightSection N other).nVertices ∧
    (objectSection N table).nVertices = (objectSection N other).nVertices ∧
    (lightSection N table).bufferSize = (lightSection N other).bufferSize ∧
    (objectSection N table).bufferSize = (objectSection N other).bufferSize ∧
    (UCreateMesh_sections c).map MeshSection.nVertices =
      (UCreateMesh_sections d).map MeshSection.nVertices := by
  have h : copyCoords (List.replicate N 0) 0 table =
      (if table.length ≤ N then Except.ok (table ++ List.replicate (N - table.length) 0)
      else Except.error N) := by
    rw [copyCoords_eq table (List.replicate N 0) 0 (Nat.zero_le _)]
    simp only [List.length_replicate, Nat.zero_add, List.take_zero, List.nil_append,
      List.drop_replicate]
  refine ⟨h, ?_, rfl, rfl, rfl, rfl, rfl, rfl, rfl⟩
  rw [h]
  by_cases hfit : table.length ≤ N
  · rw [if_pos hfit]
    exact ⟨fun _ => hfit, fun _ => ⟨_, rfl⟩⟩
  · rw [if_neg hfit]
    exact ⟨fun ⟨_, he⟩ => Except.noConfusion he, fun hle => absurd hle hfit⟩

/-! ## Holding the toggle key -/

theorem moveOnKey_perspective {C : Type} (K : CameraClass C) (glfwGetKey : Key → Bool)
    (key : Key) (d : Camera_Movement) (s : AppState C) :
    (moveOnKey K glfwGetKey key d s).perspective = s.perspective := by
  unfold moveOnKey
  split <;> rfl

theorem UProcessInput_perspective {C : Type} (K : CameraClass C) (glfwGetKey : Key → Bool)
    (s : AppState C) :
    (UProcessInput K glfwGetKey s).perspective =
      (if glfwGetKey Key.GLFW_KEY_P = true then !s.perspective else s.perspective) := by
  have toggle : ∀ (b : Bool) (t : AppState C),
      (if b = true then toggleProjection t else t).perspective =
        (if b = true then !t.perspective else t.perspective) := by
    intro b t
    cases b <;> rfl
  have close : ∀ (b : Bool) (t : AppState C),
      (if b = true then { t with windowShouldClose := true } else t).perspective =
        t.perspective := by
    intro b t
    cases b <;> rfl
  simp only [UProcessInput]
  rw [toggle, moveOnKey_perspective, moveOnKey_perspective, moveOnKey_perspective,
    moveOnKey_perspective, moveOnKey_perspective, moveOnKey_perspective, close]

theorem glfwPollEvents_perspective {C : Type} (K : CameraClass C) (events : List WindowEvent) :
    ∀ w : Run C, (glfwPollEvents K events w).app.perspective = w.app.perspective := by
  induction events with
  | nil => intro w; rfl
  | cons e rest ih =>
    intro w
    rw [glfwPollEvents, ih]
    cases e with
    | cursorPos x y =>
      cases h : w.app.gFirstMouse <;> simp [dispatch, UMousePositionCallback, h]
    | scroll x y => rfl
    | framebufferSize width height => rfl
    | close => rfl

theorem frame_perspective {C : Type} (K : CameraClass C) (loc : UniformLocations)
    (f : FrameInput) (w : Run C) :
    (frame K loc f w).app.perspective =
      (if f.glfwGetKey Key.GLFW_KEY_P = true then !w.app.perspective
      else w.app.perspective) := by
  show (glfwPollEvents K f.events _).app.perspective = _
  rw [glfwPollEvents_perspective]
  show (UProcessInput K f.glfwGetKey (tick f w.app)).perspective = _
  rw [UProcessInput_perspective]
  rfl

theorem frames_with_P_down {C : Type} (K : CameraClass C) (loc : UniformLocations)
    (fs : List FrameInput) :
    ∀ w : Run C, (∀ f ∈ fs, f.glfwGetKey Key.GLFW_KEY_P = true) →
      (fs.foldl (fun w f => frame K loc f w) w).app.perspective =
        (if fs.length % 2 = 0 then w.app.perspective else !w.app.perspective) := by
  induction fs with
  | nil => intro w _; rfl
  | cons f rest ih =>
    intro w h
    have hf : f.glfwGetKey Key.GLFW_KEY_P = true := h f (List.mem_cons_self _ _)
    rw [List.foldl_cons, ih (frame K loc f w) (fun g hg => h g (List.mem_cons_of_mem _ hg)),
      frame_perspective, if_pos hf, List.length_cons]
    rcases Nat.mod_two_eq_zero_or_one rest.length with h0 | h1
    · rw [if_pos h0, if_neg (by omega)]
    · rw [if_neg (by omega), if_pos (by omega), Bool.not_not]

/-- C23: when the key `P` is down at the poll of each of `n` consecutive iterations of the
render loop, the projection flag after them is the flag before them if `n` is even and its
negation if `n` is odd; so it is unchanged exactly when `n` is even. -/
theorem held_toggle_key_parity {C : Type} (K : CameraClass C) (loc : UniformLocations)
    (fs : List FrameInput) (w : Run C)
    (h : ∀ f ∈ fs, f.glfwGetKey Key.GLFW_KEY_P = true) :
    (fs.foldl (fun w f => frame K loc f w) w).app.perspective =
      (if fs.length % 2 = 0 then w.app.perspective else !w.app.perspective) ∧
    ((fs.foldl (fun w f => frame K loc f w) w).app.perspective = w.app.perspective ↔
      fs.length % 2 = 0) := by
  have hp := frames_with_P_down K loc fs w h
  refine ⟨hp, ?_⟩
  rw [hp]
  by_cases he : fs.length % 2 = 0
  · rw [if_pos he]
    exact ⟨fun _ => he, fun _ => rfl⟩
  · rw [if_neg he]
    constructor
    · intro hc
      cases hb : w.app.perspective <;> rw [hb] at hc <;> cases hc
    · intro h0
      exact absurd h0 he

/-- Witness of C23: three iterations with `P` down, from the start of the render loop of
`sampleEnv`, leave the projection flag negated. -/
theorem held_toggle_key_parity_witness :
    (∀ f ∈ [toggleFrame 1, toggleFrame 2, toggleFrame 3],
      f.glfwGetKey Key.GLFW_KEY_P = true) ∧
    ([toggleFrame 1, toggleFrame 2, toggleFrame 3].foldl
        (fun w f => frame recordingCamera sampleLocations f w) sampleRun).app.perspective =
      (if [toggleFrame 1, toggleFrame 2, toggleFrame 3].length % 2 = 0
        then sampleRun.app.perspective else !sampleRun.app.perspective) ∧
    (([toggleFrame 1, toggleFrame 2, toggleFrame 3].foldl
        (fun w f => frame recordingCamera sampleLocations f w) sampleRun).app.perspective =
      sampleRun.app.perspective ↔
      [toggleFrame 1, toggleFrame 2, toggleFrame 3].length % 2 = 0) :=
  have h : ∀ f ∈ [toggleFrame 1, toggleFrame 2, toggleFrame 3],
      f.glfwGetKey Key.GLFW_KEY_P = true := by
    intro f hf
    simp only [List.mem_cons, List.not_mem_nil, or_false] at hf
    rcases hf with rfl | rfl | rfl <;> rfl
  ⟨h, held_toggle_key_parity recordingCamera sampleLocations _ sampleRun h⟩

/-! ## Closing with the escape key -/

theorem mainLoop_open_frames {C : Type} (K : CameraClass C) (loc : UniformLocations)
    (rest : List FrameInput) (pre : List FrameInput) :
    ∀ w : Run C, w.app.windowShouldClose = false → pre.any closes = false →
      mainLoop K loc (pre ++ rest) w =
        mainLoop K loc rest (pre.foldl (fun w f => frame K loc f w) w) ∧
      (pre.foldl (fun w f => frame K loc f w) w).app.windowShouldClose = false := by
  induction pre with
  | nil => intro w hw _; exact ⟨rfl, hw⟩
  | cons f fs ih =>
    intro w hw hpre
    rw [List.any_cons, Bool.or_eq_false_iff] at hpre
    have hflag := (frame_fields K loc f w).1
    rw [hw, hpre.1] at hflag
    obtain ⟨i1, i2⟩ := ih (frame K loc f w) hflag hpre.2
    refine ⟨?_, i2⟩
    rw [List.cons_append, mainLoop, if_neg (by rw [hw]; exact Bool.false_ne_true), i1]
    rfl

theorem mainLoop_closing_frame {C : Type} (K : CameraClass C) (loc : UniformLocations)
    (f : FrameInput) (post : List FrameInput) (w : Run C)
    (hw : w.app.windowShouldClose = false) (hf : closes f = true) :
    mainLoop K loc (f :: post) w = (frame K loc f w, true) := by
  have hflag := (frame_fields K loc f w).1
  rw [hw, hf] at hflag
  rw [mainLoop, if_neg (by rw [hw]; exact Bool.false_ne_true)]
  exact mainLoop_closed K loc post _ hflag

theorem framesRun_until_close (f : FrameInput) (post : List FrameInput) (hf : closes f = true) :
    ∀ pre : List FrameInput, pre.any closes = false →
      framesRun (pre ++ f :: post) = pre.length + 1 ∧
      (pre ++ f :: post).any closes = true := by
  intro pre
  induction pre with
  | nil =>
    intro _
    exact ⟨by rw [List.nil_append, framesRun, if_pos hf]; rfl,
      by rw [List.nil_append, List.any_cons, hf]; rfl⟩
  | cons g gs ih =>
    intro hpre
    rw [List.any_cons, Bool.or_eq_false_iff] at hpre
    obtain ⟨i1, i2⟩ := ih hpre.2
    refine ⟨?_, ?_⟩
    · rw [List.cons_append, framesRun, if_neg (by rw [hpre.1]; exact Bool.false_ne_true), i1,
        List.length_cons]
      omega
    · rw [List.cons_append, List.any_cons, i2, Bool.or_true]

/-- C21: when the escape key is down at the input poll of an iteration of the render loop
that started with the window open, that iteration still calls `URender` (in a state whose
close flag is already set), the loop is left at the end of that iteration whatever inputs
would follow, and `main` goes on to the teardown: its calls are those made before the
iteration, the texture-unit bindings and the one `URender` of the iteration, the calls of
the callbacks of its `glfwPollEvents` (none of them a buffer swap), and the teardown; `main`
returns `EXIT_SUCCESS` and has presented one frame per iteration up to that one. -/
theorem escape_key_renders_once_more {C : Type} (K : CameraClass C) (cam : C) (env : Env)
    (pre post : List FrameInput) (f : FrameInput)
    (hs : startupOk env = true) (hf : env.frames = pre ++ f :: post)
    (hpre : pre.any closes = false) (hesc : f.glfwGetKey Key.GLFW_KEY_ESCAPE = true) :
    (pre.foldl (fun w f => frame K env.uniformLocation f w)
      (startup cam env).run).app.windowShouldClose = false ∧
    (frameState K f (pre.foldl (fun w f => frame K env.uniformLocation f w)
      (startup cam env).run).app).windowShouldClose = true ∧
    mainLoop K env.uniformLocation (f :: post)
        (pre.foldl (fun w f => frame K env.uniformLocation f w) (startup cam env).run) =
      (frame K env.uniformLocation f
        (pre.foldl (fun w f => frame K env.uniformLocation f w) (startup cam env).run), true) ∧
    (∃ polled : List GLCall,
      (main K cam env).run.calls =
        (pre.foldl (fun w f => frame K env.uniformLocation f w) (startup cam env).run).calls ++
          bindTextureUnits (tick f (pre.foldl (fun w f => frame K env.uniformLocation f w)
            (startup cam env).run).app) ++
          URender env.uniformLocation K (frameState K f
            (pre.foldl (fun w f => frame K env.uniformLocation f w)
              (startup cam env).run).app) ++
          polled ++
          teardown env (frame K env.uniformLocation f
            (pre.foldl (fun w f => frame K env.uniformLocation f w)
              (startup cam env).run)).app ∧
      polled.all (fun c => isFrameCall c && !isSwap c) = true) ∧
    (main K cam env).exit = some ExitStatus.EXIT_SUCCESS ∧
    countCalls isSwap (main K cam env).run.calls = pre.length + 1 := by
  obtain ⟨_, hw0, _, _⟩ := startup_facts cam env
  have hcl : closes f = true := by unfold closes; rw [hesc]; rfl
  obtain ⟨m1, m2⟩ := mainLoop_open_frames K env.uniformLocation (f :: post) pre
    (startup cam env).run hw0 hpre
  obtain ⟨r1, r2⟩ := framesRun_until_close f post hcl pre hpre
  have hmain := main_of_closed_window K cam env hs (by rw [hf]; exact r2)
  have hcount := (main_exit_and_frames K cam env).2.1
  rw [if_pos hs, hf, r1] at hcount
  rw [hf, m1] at hmain
  generalize pre.foldl (fun w f => frame K env.uniformLocation f w) (startup cam env).run = w
    at m1 m2 hmain ⊢
  have m3 := mainLoop_closing_frame K env.uniformLocation f post w m2 hcl
  rw [m3] at hmain
  obtain ⟨_, _, _, _, polled, hp, hall⟩ := glfwPollEvents_fields K f.events
    { app := frameState K f w.app
      calls := w.calls ++ (bindTextureUnits (tick f w.app) ++
        URender env.uniformLocation K (frameState K f w.app))
      output := w.output }
  have u1 := (UProcessInput_fields K f.glfwGetKey (tick f w.app)).1
  refine ⟨m2, ?_, m3, ⟨polled, ?_, hall⟩, ?_, hcount⟩
  · show (UProcessInput K f.glfwGetKey (tick f w.app)).windowShouldClose = true
    rw [u1, hesc]
    rfl
  · rw [hmain]
    show (frame K env.uniformLocation f w).calls ++ _ = _
    have hfr : (frame K env.uniformLocation f w).calls =
        w.calls ++ (bindTextureUnits (tick f w.app) ++
          URender env.uniformLocation K (frameState K f w.app)) ++ polled := hp
    rw [hfr]
    simp only [List.append_assoc]
  · rw [hmain]

/-- C21 on the run of `escapeEnv`: the escape key is down in the second of three recorded
iterations. -/
theorem escape_key_renders_once_more_witness :
    startupOk escapeEnv = true ∧
    escapeEnv.frames = [ idleFrame 1 ] ++ escapeFrame 2 :: [ idleFrame 3 ] ∧
    (main recordingCamera freshCamera escapeEnv).exit = some ExitStatus.EXIT_SUCCESS ∧
    countCalls isSwap (main recordingCamera freshCamera escapeEnv).run.calls = 2 :=
  ⟨rfl, rfl,
    (escape_key_renders_once_more recordingCamera freshCamera escapeEnv [ idleFrame 1 ]
      [ idleFrame 3 ] (escapeFrame 2) rfl rfl rfl rfl).2.2.2.2.1,
    (escape_key_renders_once_more recordingCamera freshCamera escapeEnv [ idleFrame 1 ]
      [ idleFrame 3 ] (escapeFrame 2) rfl rfl rfl rfl).2.2.2.2.2⟩

/-! ## The model matrix of each draw -/

theorem modelDraws_lightLoop (t : GLuint) (l : GLint) (loc : UniformLocations) (q : GLuint)
    (lights : List GLLight) :
    ∀ (i : Nat) (p v : GLuint) (m : Option Mat4) (rest : List GLCall),
      modelDraws t l p v m (URender_lightLoop loc q i lights ++ rest) =
        modelDraws t l p v m rest := by
  induction lights with
  | nil => intro i p v m rest; rfl
  | cons x xs ih =>
    intro i p v m rest
    simp only [URender_lightLoop, URender_lightUniforms, List.append_assoc, List.cons_append,
      List.nil_append]
    simp only [modelDraws]
    exact ih (i + 1) p v m rest

theorem modelDraws_lampLoop {C : Type} (t : GLuint) (l : GLint) (loc : UniformLocations)
    (s : AppState C) (view projection : Mat4) (lights : List GLLight) :
    ∀ (p v : GLuint) (m : Option Mat4),
      modelDraws t l p v m (URender_lampLoop loc s view projection lights ++
        [GLCall.glBindVertexArray 0, GLCall.glUseProgram 0, GLCall.glfwSwapBuffers]) = [] := by
  induction lights with
  | nil => intro p v m; rfl
  | cons x xs ih =>
    intro p v m
    simp only [URender_lampLoop, URender_lamp, uploadMatrices, List.append_assoc,
      List.cons_append, List.nil_append]
    simp only [modelDraws]
    exact ih _ _ _

theorem modelDraws_drawObject {C : Type} (loc : UniformLocations) (s : AppState C)
    (model view projection : Mat4) (unit : Int) (vaoIx countIx : Fin 11) (v : GLuint)
    (m : Option Mat4) (rest : List GLCall)
    (hview : loc s.shaderProgramId "view" ≠ loc s.shaderProgramId "model")
    (hproj : loc s.shaderProgramId "projection" ≠ loc s.shaderProgramId "model") :
    modelDraws s.shaderProgramId (loc s.shaderProgramId "model") s.shaderProgramId v m
        (drawObject loc s model view projection unit vaoIx countIx ++ rest) =
      ⟨s.shaderProgramId, s.gMesh.vao vaoIx, some model⟩ ::
        modelDraws s.shaderProgramId (loc s.shaderProgramId "model") s.shaderProgramId
          (s.gMesh.vao vaoIx) (some model) rest := by
  simp only [drawObject, uploadMatrices, List.append_assoc, List.cons_append, List.nil_append]
  simp only [modelDraws, hview, hproj, and_self, and_false, if_true, if_false]

/-- C24: in every frame, when the driver gives the uniforms `view` and `projection` of the
lit program locations other than that of `model`, the matrix held by the uniform `model`
at the ten draw calls of `URender` is: `scale(I, (0.5, 0.5, 0.5))` for milk body, milk top
and milk plane; one and the same matrix
`translate(I, (-3.35, 11, -2.8)) * rotate(I, degrees(6.1), (1, 0, 0)) * scale(I, (0.85, 1, 0.85))`
for cap top and cap side; `translate(I, (-5, 0, 4)) * scale(I, (0.4, 0.4, 0.4))` for glass
top and glass side; and the identity for the ground plane. -/
theorem URender_model_matrices {C : Type} (loc : UniformLocations) (K : CameraClass C)
    (s : AppState C) (p v : GLuint) (m : Option Mat4)
    (hview : loc s.shaderProgramId "view" ≠ loc s.shaderProgramId "model")
    (hproj : loc s.shaderProgramId "projection" ≠ loc s.shaderProgramId "model") :
    modelDraws s.shaderProgramId (loc s.shaderProgramId "model") p v m (URender loc K s) =
      [ ⟨s.shaderProgramId, s.gMesh.vao milkBody,
          some (Mat4.scale Mat4.identity ⟨1/2, 1/2, 1/2⟩)⟩,
        ⟨s.shaderProgramId, s.gMesh.vao milkTop,
          some (Mat4.scale Mat4.identity ⟨1/2, 1/2, 1/2⟩)⟩,
        ⟨s.shaderProgramId, s.gMesh.vao capTop,
          some (Mat4.mul (Mat4.mul (Mat4.translate Mat4.identity ⟨-335/100, 11, -28/10⟩)
            (Mat4.rotate Mat4.identity (Angle.degrees (61/10)) ⟨1, 0, 0⟩))
            (Mat4.scale Mat4.identity ⟨85/100, 1, 85/100⟩))⟩,
        ⟨s.shaderProgramId, s.gMesh.vao capSide,
          some (Mat4.mul (Mat4.mul (Mat4.translate Mat4.identity ⟨-335/100, 11, -28/10⟩)
            (Mat4.rotate Mat4.identity (Angle.degrees (61/10)) ⟨1, 0, 0⟩))
            (Mat4.scale Mat4.identity ⟨85/100, 1, 85/100⟩))⟩,
        ⟨s.shaderProgramId, s.gMesh.vao donutBox,
          some (Mat4.mul (Mat4.translate Mat4.identity ⟨5, 0, 2⟩)
            (Mat4.scale Mat4.identity ⟨7/10, 6/10, 7/10⟩))⟩,
        ⟨s.shaderProgramId, s.gMesh.vao donut,
          some (Mat4.mul (Mat4.translate Mat4.identity ⟨0, 0, 6⟩)
            (Mat4.scale Mat4.identity ⟨6/10, 7/10, 6/10⟩))⟩,
        ⟨s.shaderProgramId, s.gMesh.vao glassTop,
          some (Mat4.mul (Mat4.translate Mat4.identity ⟨-5, 0, 4⟩)
            (Mat4.scale Mat4.identity ⟨4/10, 4/10, 4/10⟩))⟩,
        ⟨s.shaderProgramId, s.gMesh.vao glassSide,
          some (Mat4.mul (Mat4.translate Mat4.identity ⟨-5, 0, 4⟩)
            (Mat4.scale Mat4.identity ⟨4/10, 4/10, 4/10⟩))⟩,
        ⟨s.shaderProgramId, s.gMesh.vao milkPlane,
          some (Mat4.scale Mat4.identity ⟨1/2, 1/2, 1/2⟩)⟩,
        ⟨s.shaderProgramId, s.gMesh.vao planeGround, some Mat4.identity⟩ ] := by
  simp only [URender, URender_setup, URender_objects, uploadMatrices, List.append_assoc,
    List.cons_append, List.nil_append]
  simp only [modelDraws, modelDraws_lightLoop]
  simp only [hview, hproj, and_self, and_false, if_true, if_false, List.append_eq,
    List.nil_append, modelDraws_lampLoop]
  rfl

/-- C24 on the state in which `sampleEnv` enters the render loop, with a driver that gives
`model`, `view` and `projection` the locations 0, 1 and 2. -/
theorem URender_model_matrices_witness :
    namedLocations sampleRun.app.shaderProgramId "view" ≠
      namedLocations sampleRun.app.shaderProgramId "model" ∧
    namedLocations sampleRun.app.shaderProgramId "projection" ≠
      namedLocations sampleRun.app.shaderProgramId "model" ∧
    (modelDraws sampleRun.app.shaderProgramId
      (namedLocations sampleRun.app.shaderProgramId "model") 0 0 none
      (URender namedLocations recordingCamera sampleRun.app)).map ModelDraw.model =
      [ some (Mat4.scale Mat4.identity ⟨1/2, 1/2, 1/2⟩),
        some (Mat4.scale Mat4.identity ⟨1/2, 1/2, 1/2⟩),
        some (Mat4.mul (Mat4.mul (Mat4.translate Mat4.identity ⟨-335/100, 11, -28/10⟩)
          (Mat4.rotate Mat4.identity (Angle.degrees (61/10)) ⟨1, 0, 0⟩))
          (Mat4.scale Mat4.identity ⟨85/100, 1, 85/100⟩)),
        some (Mat4.mul (Mat4.mul (Mat4.translate Mat4.identity ⟨-335/100, 11, -28/10⟩)
          (Mat4.rotate Mat4.identity (Angle.degrees (61/10)) ⟨1, 0, 0⟩))
          (Mat4.scale Mat4.identity ⟨85/100, 1, 85/100⟩)),
        some (Mat4.mul (Mat4.translate Mat4.identity ⟨5, 0, 2⟩)
          (Mat4.scale Mat4.identity ⟨7/10, 6/10, 7/10⟩)),
        some (Mat4.mul (Mat4.translate Mat4.identity ⟨0, 0, 6⟩)
          (Mat4.scale Mat4.identity ⟨6/10, 7/10, 6/10⟩)),
        some (Mat4.mul (Mat4.translate Mat4.identity ⟨-5, 0, 4⟩)
          (Mat4.scale Mat4.identity ⟨4/10, 4/10, 4/10⟩)),
        some (Mat4.mul (Mat4.translate Mat4.identity ⟨-5, 0, 4⟩)
          (Mat4.scale Mat4.identity ⟨4/10, 4/10, 4/10⟩)),
        some (Mat4.scale Mat4.identity ⟨1/2, 1/2, 1/2⟩),
        some Mat4.identity ] :=
  ⟨by decide, by decide,
    congrArg (List.map ModelDraw.model)
      (URender_model_matrices namedLocations recordingCamera sampleRun.app 0 0 none
        (by decide) (by decide))⟩

end Scene
